/-
Verification of the mica-register validation / cleaning / remediation core.

Shallow embedding of the Python source under backend/app (csv_clean.py,
csv_validate.py, import_csv.py, remediation/*.py) into Lean 4, followed by
theorems settling the stated properties of the pipeline.

Modelling conventions:
- Python `str` values are Lean `String`s.  The cleaner loads its DataFrame
  with dtype=str, keep_default_na=False, na_filter=False, so every cell of
  the cleaning table is a string (never NaN); the remediation modules load
  with pandas defaults, so their cells are `Option String` (none = NaN).
- Python whitespace functions (str.strip, regex \s) are modelled over the
  common whitespace characters (space, tab, CR, LF, FF, VT, NBSP); Python
  additionally strips rarer Unicode space characters, which do not occur in
  the theorems below.
- str.upper / str.lower are modelled as ASCII case mapping (Char.toUpper /
  Char.toLower); all case-mapped data in the theorems is ASCII.
- The expression str(int(float(lei))).upper() used by the LEI Excel-notation
  repair depends on IEEE-754 binary64 parsing; it is abstracted as a
  parameter `sci : String → Option String` (none models ValueError /
  OverflowError).  For the concrete input "9.60E+19" the decimal value
  9.6e19 = 11444091796875 * 2^23 is exactly representable in binary64, so
  Python returns exactly "96000000000000000000"; theorems about that input
  take the corresponding hypothesis on `sci`.
- sha256 hex digests (row_identifier.py) are abstracted as a parameter
  `h : String → String`; no theorem depends on actual digest values.
-/
import Mathlib

set_option maxRecDepth 100000

namespace MicaReg

/-! ## Python string primitives -/

/-- Whitespace characters recognised by the model of Python `str.strip` /
regex `\s` (space, tab, LF, CR, FF, VT, NBSP). -/
def isPyWs (c : Char) : Bool :=
  c = ' ' || c = '\t' || c = '\n' || c = '\r' ||
  c = '\x0b' || c = '\x0c' || c = ' '

/-- Model of Python `str.strip()` (no argument): drop leading and trailing
whitespace. -/
def pyStrip (s : String) : String :=
  ⟨((s.data.dropWhile isPyWs).reverse.dropWhile isPyWs).reverse⟩

/-- Model of Python `str.rstrip('.')`: drop all trailing dots. -/
def rstripDots (s : String) : String :=
  ⟨(s.data.reverse.dropWhile (· = '.')).reverse⟩

/-- Model of Python `str.lstrip` over a character predicate (helper). -/
def dropWhileStr (p : Char → Bool) (s : String) : String :=
  ⟨s.data.dropWhile p⟩

/-- ASCII model of Python `str.upper()`. -/
def pyUpper (s : String) : String := ⟨s.data.map Char.toUpper⟩

/-- ASCII model of Python `str.lower()`. -/
def pyLower (s : String) : String := ⟨s.data.map Char.toLower⟩

/-- `listIsInfix pat s`: does `pat` occur as a contiguous sublist of `s`?
Model of Python `pat in s` for strings. -/
def listIsInfix (pat : List Char) : List Char → Bool
  | [] => pat.isEmpty
  | c :: rest => pat.isPrefixOf (c :: rest) || listIsInfix pat rest

/-- Model of Python `pat in s` (substring containment). -/
def strContains (s pat : String) : Bool :=
  listIsInfix pat.data s.data

/-- Model of Python `s.startswith(p)`. -/
def pyStartsWith (s p : String) : Bool := p.data.isPrefixOf s.data

/-- Model of Python `s.endswith(p)`. -/
def pyEndsWith (s p : String) : Bool := p.data.reverse.isPrefixOf s.data.reverse

/-- Model of Python `str.replace(pat, rep)` for nonempty `pat`: replace all
non-overlapping occurrences, scanning left to right.  (Lean's own
String.replace has the same semantics; this List-level version is easier to
reason about and is used uniformly.) -/
def listReplaceFuel (pat rep : List Char) : Nat → List Char → List Char
  | 0, l => l
  | _ + 1, [] => []
  | fuel + 1, c :: rest =>
    if pat.isPrefixOf (c :: rest) ∧ pat ≠ [] then
      rep ++ listReplaceFuel pat rep fuel (rest.drop (pat.length - 1))
    else
      c :: listReplaceFuel pat rep fuel rest

def listReplace (pat rep : List Char) (l : List Char) : List Char :=
  listReplaceFuel pat rep l.length l

/-- Model of Python `str.replace` on `String`. -/
def pyReplace (s pat rep : String) : String :=
  ⟨listReplace pat.data rep.data s.data⟩

/-- Model of Python slicing `s[:n]` (by code points). -/
def pyTake (n : Nat) (s : String) : String := ⟨s.data.take n⟩

/-- Model of Python slicing `s[a:b]`. -/
def pySlice (a b : Nat) (s : String) : String :=
  ⟨(s.data.take b).drop a⟩

/-- Index of the first occurrence of `pat` in `s`, model of Python
`str.find` (returning none for -1). -/
def listFindSub (pat : List Char) : List Char → Option Nat
  | [] => if pat.isEmpty then some 0 else none
  | c :: rest =>
    if pat.isPrefixOf (c :: rest) then some 0
    else (listFindSub pat rest).map (· + 1)

def pyFind (s pat : String) : Option Nat := listFindSub pat.data s.data

/-- Split a character list on a separator-character predicate, keeping
empty fields: model of `re.split(r'[...]+', s)` is obtained by filtering
empty tokens afterwards where the Python code does so, and of
`str.split(sep)` by single-character separators. -/
def splitChars (isSep : Char → Bool) (l : List Char) : List (List Char) :=
  match l with
  | [] => [[]]
  | c :: rest =>
    let r := splitChars isSep rest
    if isSep c then [] :: r
    else
      match r with
      | [] => [[c]]
      | t :: ts => (c :: t) :: ts

/-- Model of `re.split(r'[|;,\s]+', s)` followed by dropping empty tokens
(the Python callers skip empty tokens explicitly). -/
def splitSepWs (s : String) : List String :=
  ((splitChars (fun c => c = '|' || c = ';' || c = ',' || isPyWs c) s.data).map
    (fun l => (⟨l⟩ : String))).filter (· ≠ "")

/-- Model of `re.split(r'[|;,]', s)` keeping empty tokens (validation splits
then strips and skips empties itself). -/
def splitPipeSemiComma (s : String) : List String :=
  (splitChars (fun c => c = '|' || c = ';' || c = ',') s.data).map
    (fun l => (⟨l⟩ : String))

/-- Model of `str.split('|')`. -/
def splitPipe (s : String) : List String :=
  (splitChars (· = '|') s.data).map (fun l => (⟨l⟩ : String))

/-- Model of `re.split(r'[\s\n\r]+', s)` keeping empty boundary tokens (the
multiline website fixer strips each part and filters afterwards). -/
def splitWs (s : String) : List String :=
  (splitChars isPyWs s.data).map (fun l => (⟨l⟩ : String))

/-- Worker for `collapseWs` (fuelled by the list length, which always
suffices since every step consumes at least one character). -/
def collapseWsGo : Nat → List Char → List Char
  | 0, l => l
  | _ + 1, [] => []
  | fuel + 1, c :: rest =>
    if isPyWs c then
      ' ' :: collapseWsGo fuel (rest.dropWhile isPyWs)
    else
      c :: collapseWsGo fuel rest

/-- Model of `re.sub(r'\s+', ' ', s)`: collapse every run of whitespace
characters into a single space. -/
def collapseWs (s : String) : String :=
  ⟨collapseWsGo s.data.length s.data⟩

def isAsciiDigit (c : Char) : Bool := '0' ≤ c && c ≤ '9'
def isAsciiUpperAlpha (c : Char) : Bool := 'A' ≤ c && c ≤ 'Z'
def isAsciiLowerAlpha (c : Char) : Bool := 'a' ≤ c && c ≤ 'z'
def isAsciiAlpha (c : Char) : Bool := isAsciiUpperAlpha c || isAsciiLowerAlpha c
def isAsciiAlnum (c : Char) : Bool := isAsciiAlpha c || isAsciiDigit c
/-- Characters matching the character class `[A-Z0-9]`. -/
def isUpperAlnum (c : Char) : Bool := isAsciiUpperAlpha c || isAsciiDigit c

/-- Model of `re.compile(r'^[A-Z0-9]{20}$').match(s)` viewed as a Bool. -/
def leiPatternMatch (s : String) : Bool :=
  s.data.length = 20 && s.data.all isUpperAlnum

/-- Model of `re.sub(r'[^A-Z0-9]', '', s)`. -/
def keepUpperAlnum (s : String) : String :=
  ⟨s.data.filter isUpperAlnum⟩

/-- Digit value of an ASCII digit character. -/
def digitVal (c : Char) : Nat := c.toNat - '0'.toNat

/-- Natural number denoted by a list of ASCII digits (most significant
first); the callers guarantee all characters are digits. -/
def digitsToNat (l : List Char) : Nat :=
  l.foldl (fun acc c => acc * 10 + digitVal c) 0

/-- Sort a list of strings ascending (model of Python `sorted` on strings;
both compare lexicographically by code point). -/
def sortStrings (l : List String) : List String :=
  l.mergeSort (fun a b => decide (a ≤ b))

/-- Model of `'|'.join l` (and other joins via the separator argument). -/
def joinSep (sep : String) : List String → String
  | [] => ""
  | [x] => x
  | x :: xs => x ++ sep ++ joinSep sep xs

/-- Insert into an order-preserving duplicate-free list: used to model a
Python `set` whose observable uses are membership and `sorted(...)`. -/
def setInsert (x : String) (l : List String) : List String :=
  if x ∈ l then l else l ++ [x]

end MicaReg

namespace MicaReg

/-! ## Dates: models of datetime.strptime / strftime and the date formats
used by the pipeline ("%d/%m/%Y", "%Y-%m-%d", "%m/%d/%Y") -/

structure PyDate where
  year : Nat
  month : Nat
  day : Nat
deriving DecidableEq

def isLeapYear (y : Nat) : Bool :=
  y % 4 = 0 && (y % 100 ≠ 0 || y % 400 = 0)

def daysInMonth (y m : Nat) : Nat :=
  if m = 2 then (if isLeapYear y then 29 else 28)
  else if m = 4 || m = 6 || m = 9 || m = 11 then 30
  else 31

/-- Calendar validity as enforced by `datetime.datetime` (MINYEAR = 1,
MAXYEAR = 9999); month and day lower bounds are already enforced by the
strptime regex fragments. -/
def validDate (d : PyDate) : Bool :=
  1 ≤ d.year && d.year ≤ 9999 && 1 ≤ d.month && d.month ≤ 12 &&
  1 ≤ d.day && d.day ≤ daysInMonth d.year d.month

/-- Candidates for strptime's `%d` fragment `(3[01]|[12]\d|0[1-9]|[1-9])`,
in regex-alternation (backtracking) order: every two-digit alternative
precedes the one-digit alternative.  Returns (value, rest) pairs. -/
def dayCandidates : List Char → List (Nat × List Char)
  | c1 :: c2 :: rest =>
    (if isAsciiDigit c1 ∧ isAsciiDigit c2 ∧
        1 ≤ digitVal c1 * 10 + digitVal c2 ∧ digitVal c1 * 10 + digitVal c2 ≤ 31 then
       [(digitVal c1 * 10 + digitVal c2, rest)]
     else []) ++
    (if isAsciiDigit c1 ∧ 1 ≤ digitVal c1 then [(digitVal c1, c2 :: rest)] else [])
  | [c1] => if isAsciiDigit c1 ∧ 1 ≤ digitVal c1 then [(digitVal c1, [])] else []
  | [] => []

/-- Candidates for strptime's `%m` fragment `(1[0-2]|0[1-9]|[1-9])`, in
alternation order. -/
def monthCandidates : List Char → List (Nat × List Char)
  | c1 :: c2 :: rest =>
    (if isAsciiDigit c1 ∧ isAsciiDigit c2 ∧
        1 ≤ digitVal c1 * 10 + digitVal c2 ∧ digitVal c1 * 10 + digitVal c2 ≤ 12 then
       [(digitVal c1 * 10 + digitVal c2, rest)]
     else []) ++
    (if isAsciiDigit c1 ∧ 1 ≤ digitVal c1 then [(digitVal c1, c2 :: rest)] else [])
  | [c1] => if isAsciiDigit c1 ∧ 1 ≤ digitVal c1 then [(digitVal c1, [])] else []
  | [] => []

/-- strptime's `%Y` fragment `(\d\d\d\d)`: exactly four digits. -/
def yearParse : List Char → Option (Nat × List Char)
  | a :: b :: c :: d :: rest =>
    if [a, b, c, d].all isAsciiDigit then
      some (digitsToNat [a, b, c, d], rest)
    else none
  | _ => none

/-- Expect a literal character. -/
def litParse (ch : Char) : List Char → Option (List Char)
  | c :: rest => if c = ch then some rest else none
  | [] => none

def firstSome {α : Type} : List (Option α) → Option α
  | [] => none
  | some a :: _ => some a
  | none :: rest => firstSome rest

/-- The three date formats the pipeline uses. -/
inductive DateFmt
  | dmy   -- "%d/%m/%Y"
  | ymd   -- "%Y-%m-%d"
  | mdy   -- "%m/%d/%Y"
deriving DecidableEq

/-- Model of `datetime.strptime(s, fmt).date()`: the regex built by
`_strptime` must match the whole string (first full match in backtracking
order), after which the datetime constructor validates the calendar
date. -/
def strptime (fmt : DateFmt) (s : String) : Option PyDate :=
  let regexMatch : Option PyDate :=
    match fmt with
    | .dmy =>
      firstSome <| (dayCandidates s.data).map fun (d, r1) =>
        (litParse '/' r1).bind fun r2 =>
          firstSome <| (monthCandidates r2).map fun (m, r3) =>
            (litParse '/' r3).bind fun r4 =>
              (yearParse r4).bind fun (y, r5) =>
                if r5 = [] then some ⟨y, m, d⟩ else none
    | .mdy =>
      firstSome <| (monthCandidates s.data).map fun (m, r1) =>
        (litParse '/' r1).bind fun r2 =>
          firstSome <| (dayCandidates r2).map fun (d, r3) =>
            (litParse '/' r3).bind fun r4 =>
              (yearParse r4).bind fun (y, r5) =>
                if r5 = [] then some ⟨y, m, d⟩ else none
    | .ymd =>
      (yearParse s.data).bind fun (y, r1) =>
        (litParse '-' r1).bind fun r2 =>
          firstSome <| (monthCandidates r2).map fun (m, r3) =>
            (litParse '-' r3).bind fun r4 =>
              firstSome <| (dayCandidates r4).map fun (d, r5) =>
                if r5 = [] then some ⟨y, m, d⟩ else none
  regexMatch.bind fun d => if validDate d then some d else none

def pad2 (n : Nat) : String :=
  if n < 10 then "0" ++ toString n else toString n

def pad4 (n : Nat) : String :=
  if n < 10 then "000" ++ toString n
  else if n < 100 then "00" ++ toString n
  else if n < 1000 then "0" ++ toString n
  else toString n

/-- Model of `date.strftime(fmt)` for the three formats (zero-padded, as
glibc produces). -/
def strftime (fmt : DateFmt) (d : PyDate) : String :=
  match fmt with
  | .dmy => pad2 d.day ++ "/" ++ pad2 d.month ++ "/" ++ pad4 d.year
  | .ymd => pad4 d.year ++ "-" ++ pad2 d.month ++ "-" ++ pad2 d.day
  | .mdy => pad2 d.month ++ "/" ++ pad2 d.day ++ "/" ++ pad4 d.year

/-! ### The date-glitch regex substitutions of import_csv.parse_date and
csv_validate.classify_date -/

/-- Generic model of `re.sub` for matchers that consume at least one
character: `m` returns (replacement, number of characters consumed). -/
def reSubScanFuel (m : List Char → Option (List Char × Nat)) :
    Nat → List Char → List Char
  | 0, l => l
  | _ + 1, [] => []
  | fuel + 1, c :: rest =>
    match m (c :: rest) with
    | some (rep, k) => rep ++ reSubScanFuel m fuel (rest.drop (k - 1))
    | none => c :: reSubScanFuel m fuel rest

def reSubScan (m : List Char → Option (List Char × Nat)) (l : List Char) :
    List Char :=
  reSubScanFuel m l.length l

/-- Generic model of `re.search` (is there a match anywhere?). -/
def reSearch (m : List Char → Option (List Char × Nat)) : List Char → Bool
  | [] => (m []).isSome
  | c :: rest => (m (c :: rest)).isSome || reSearch m rest

/-- `\s*` run length. -/
def wsRun (l : List Char) : Nat := (l.takeWhile isPyWs).length

/-- Matcher for `(\d{2}/\d{2})/\s*\.\s*(\d{4})` → `\1/\2`
(parse_date, first substitution: "DD/MM/.YYYY" and "DD/MM/ .YYYY"). -/
def dateDotMatchSlash : List Char → Option (List Char × Nat)
  | d1 :: d2 :: s1 :: d3 :: d4 :: s2 :: rest =>
    if ([d1, d2, d3, d4].all isAsciiDigit) ∧ s1 = '/' ∧ s2 = '/' then
      let w1 := wsRun rest
      match rest.drop w1 with
      | '.' :: r2 =>
        let w2 := wsRun r2
        match r2.drop w2 with
        | y1 :: y2 :: y3 :: y4 :: _ =>
          if [y1, y2, y3, y4].all isAsciiDigit then
            some ([d1, d2, '/', d3, d4, '/', y1, y2, y3, y4],
                  6 + w1 + 1 + w2 + 4)
          else none
        | _ => none
      | _ => none
    else none
  | _ => none

/-- Matcher for `(\d{2}/\d{2})\.(\d{4})` → `\1/\2`
(parse_date, second substitution: "DD/MM.YYYY"). -/
def dateDotMatchNoSlash : List Char → Option (List Char × Nat)
  | d1 :: d2 :: s1 :: d3 :: d4 :: dot :: y1 :: y2 :: y3 :: y4 :: _ =>
    if ([d1, d2, d3, d4, y1, y2, y3, y4].all isAsciiDigit) ∧ s1 = '/' ∧ dot = '.' then
      some ([d1, d2, '/', d3, d4, '/', y1, y2, y3, y4], 10)
    else none
  | _ => none

/-- Matcher for `(\d{2}/\d{2})\s+\.\s*(\d{4})` → `\1/\2`
(parse_date, third substitution: "DD/MM .YYYY"). -/
def dateDotMatchSpace : List Char → Option (List Char × Nat)
  | d1 :: d2 :: s1 :: d3 :: d4 :: rest =>
    if ([d1, d2, d3, d4].all isAsciiDigit) ∧ s1 = '/' then
      let w1 := wsRun rest
      if w1 = 0 then none
      else
        match rest.drop w1 with
        | '.' :: r2 =>
          let w2 := wsRun r2
          match r2.drop w2 with
          | y1 :: y2 :: y3 :: y4 :: _ =>
            if [y1, y2, y3, y4].all isAsciiDigit then
              some ([d1, d2, '/', d3, d4, '/', y1, y2, y3, y4],
                    5 + w1 + 1 + w2 + 4)
            else none
          | _ => none
        | _ => none
    else none
  | _ => none

/-- Matcher for classify_date's repairable pattern
`(\d{2}/\d{2})/\.\s*(\d{4})` → `\1/\2` (note: no whitespace allowed
between the slash and the dot). -/
def classifyDotMatch : List Char → Option (List Char × Nat)
  | d1 :: d2 :: s1 :: d3 :: d4 :: s2 :: dot :: rest =>
    if ([d1, d2, d3, d4].all isAsciiDigit) ∧ s1 = '/' ∧ s2 = '/' ∧ dot = '.' then
      let w2 := wsRun rest
      match rest.drop w2 with
      | y1 :: y2 :: y3 :: y4 :: _ =>
        if [y1, y2, y3, y4].all isAsciiDigit then
          some ([d1, d2, '/', d3, d4, '/', y1, y2, y3, y4], 7 + w2 + 4)
        else none
      | _ => none
    else none
  | _ => none

/-- Model of `import_csv.parse_date(date_str, date_format)`. -/
def parse_date (fmt : DateFmt) (dateStr : String) : Option PyDate :=
  if dateStr = "" ∨ pyStrip dateStr = "" then none
  else
    let s0 := pyStrip dateStr
    let s1 : String := ⟨reSubScan dateDotMatchSlash s0.data⟩
    let s2 : String := ⟨reSubScan dateDotMatchNoSlash s1.data⟩
    let s3 : String := ⟨reSubScan dateDotMatchSpace s2.data⟩
    let s4 := rstripDots s3
    match strptime fmt s4 with
    | some d => some d
    | none =>
      firstSome <|
        ([DateFmt.dmy, DateFmt.ymd, DateFmt.mdy].filter (· ≠ fmt)).map
          (fun f => strptime f s4)

/-- Result record of `csv_validate.classify_date`. -/
structure DateClass where
  ok : Bool
  repairable : Bool
  normalizedHint : Option String
deriving DecidableEq

/-- Model of `csv_validate.classify_date(value)`. -/
def classify_date (value : String) : DateClass :=
  if value = "" ∨ pyStrip value = "" then ⟨false, false, none⟩
  else
    let v := pyStrip value
    if reSearch classifyDotMatch v.data then
      ⟨false, true, some ⟨reSubScan classifyDotMatch v.data⟩⟩
    else if (strptime .dmy v).isSome then ⟨true, false, none⟩
    else if (strptime .ymd v).isSome then ⟨true, false, none⟩
    else ⟨false, false, none⟩

end MicaReg

namespace MicaReg

/-! ## import_csv.py helpers: encoding fixes, URLs, service codes, names -/

/-- The three "replacement character" representations iterated by
`fix_encoding_issues`: U+FFFD, the sequence "ï¿½" (U+FFFD's UTF-8 bytes
decoded as Latin-1), and the empty string. -/
def replacementChars : List String := ["�", "ï¿½", ""]

/-- `text.replace(pat, rep) if pat in text else text`; the containment test
mirrors the Python `if ... in text:` guards (the result is the same with or
without the guard). -/
def condReplace (pat rep text : String) : String :=
  if strContains text pat then pyReplace text pat rep else text

/-- One iteration of the first `for rep_char in replacement_chars` loop of
`fix_encoding_issues` (German ß/ö repairs around a replacement char). -/
def encRepStep (text : String) (rep : String) : String :=
  let text := condReplace ("Stra" ++ rep ++ "e") "Straße" text
  let text := condReplace ("stra" ++ rep ++ "e") "straße" text
  let text := condReplace ("L" ++ rep ++ "w") "Löw" text
  let text := condReplace ("l" ++ rep ++ "w") "löw" text
  if strContains text ("M" ++ rep ++ "n") &&
     (strContains text "chen" || strContains text "ster") then
    pyReplace text ("M" ++ rep ++ "n") "Mün"
  else text

/-- Does `rep ++ ")"` start here?  If so return the rest after it. -/
def parenCloseCheck (rep : List Char) (l : List Char) : Option (List Char) :=
  if rep.isPrefixOf l then
    match l.drop rep.length with
    | ')' :: r => some r
    | _ => none
  else none

/-- Non-greedy body extension for the parenthesised-replacement-char
patterns: at each step first try to close (shortest match), otherwise
extend the body by one class character.  Returns (body, rest-after-close).
`acc` holds the body accumulated so far, reversed. -/
def ngBody (cls : Char → Bool) (rep : List Char) :
    List Char → List Char → Option (List Char × List Char)
  | acc, [] =>
    match parenCloseCheck rep [] with
    | some r => some (acc.reverse, r)
    | none => none
  | acc, c :: rest =>
    match parenCloseCheck rep (c :: rest) with
    | some r => some (acc.reverse, r)
    | none => if cls c then ngBody cls rep (c :: acc) rest else none

/-- Matcher for `\( rep ([A-Za-z][A-Za-z0-9\s]+?) rep \)` → `("body")`. -/
def matchParenWord (rep : List Char) : List Char → Option (List Char × Nat)
  | '(' :: r1 =>
    if rep.isPrefixOf r1 then
      match r1.drop rep.length with
      | c0 :: c1 :: r3 =>
        if isAsciiAlpha c0 ∧ (isAsciiAlnum c1 || isPyWs c1) then
          match ngBody (fun c => isAsciiAlnum c || isPyWs c) rep [c1, c0] r3 with
          | some (body, _) =>
            some ('(' :: '"' :: body ++ ['"', ')'],
                  1 + rep.length + body.length + rep.length + 1)
          | none => none
        else none
      | _ => none
    else none
  | _ => none

/-- Matcher for `\( rep ([^)]+?) rep \)` → `("body")`. -/
def matchParenAny (rep : List Char) : List Char → Option (List Char × Nat)
  | '(' :: r1 =>
    if rep.isPrefixOf r1 then
      match r1.drop rep.length with
      | c0 :: r2 =>
        if c0 ≠ ')' then
          match ngBody (fun c => c ≠ ')') rep [c0] r2 with
          | some (body, _) =>
            some ('(' :: '"' :: body ++ ['"', ')'],
                  1 + rep.length + body.length + rep.length + 1)
          | none => none
        else none
      | _ => none
    else none
  | _ => none

/-- One iteration of the second `for rep_char in replacement_chars` loop of
`fix_encoding_issues` (quotes lost around a parenthesised word); skipped
for the empty replacement string. -/
def encParenStep (text : String) (rep : String) : String :=
  if rep ≠ "" then
    let text : String := ⟨reSubScan (matchParenWord rep.data) text.data⟩
    if strContains text rep && strContains text "(" && strContains text ")" then
      ⟨reSubScan (matchParenAny rep.data) text.data⟩
    else text
  else text

/-- Model of `import_csv.fix_encoding_issues(text)` for string input (the
non-string/NaN early return cannot occur on the cleaner's dtype=str
table). -/
def fix_encoding_issues (text0 : String) : String :=
  let text := replacementChars.foldl encRepStep text0
  let text := pyReplace text "Strae" "Straße"
  let text := pyReplace text "strae" "straße"
  let text := pyReplace text "Lw" "Löw"
  let text := pyReplace text "lw" "löw"
  let text := pyReplace text "Strasse" "Straße"
  let text := pyReplace text "Ã¤" "ä"
  let text := pyReplace text "Ã¶" "ö"
  let text := pyReplace text "Ã¼" "ü"
  let text := pyReplace text "Ã„" "Ä"
  let text := pyReplace text "Ã–" "Ö"
  let text := pyReplace text "Ãœ" "Ü"
  let text := pyReplace text "ÃŸ" "ß"
  let text := replacementChars.foldl encParenStep text
  let text := pyReplace text "â€œ" "\""
  let text := pyReplace text "â€" "\""
  let text := pyReplace text "â€™" "'"
  let text := pyReplace text "â€˜" "'"
  text

/-- Anchored model of `re.match(r'^[a-zA-Z0-9][a-zA-Z0-9-]*[a-zA-Z0-9]*\.[a-zA-Z]{2,}', s)`:
first character alphanumeric, then a run of `[a-zA-Z0-9-]`, then a dot
followed by at least two ASCII letters. -/
def domainPatternMatch (s : String) : Bool :=
  match s.data with
  | c :: rest =>
    if isAsciiAlnum c then
      match rest.dropWhile (fun d => isAsciiAlnum d || d = '-') with
      | '.' :: a :: b :: _ => isAsciiAlpha a && isAsciiAlpha b
      | _ => false
    else false
  | [] => false

/-- Model of `import_csv.is_url(value)` for string input. -/
def is_url (value : String) : Bool :=
  if value = "" then false
  else
    let s := pyStrip value
    if s = "" then false
    else if pyStartsWith s "http://" || pyStartsWith s "https://" ||
            pyStartsWith s "www." then true
    else domainPatternMatch s

/-- Model of `import_csv.normalize_service_code(service_text)`.
`re.match(r'^([a-j])\.?\s*', t, IGNORECASE)` succeeds exactly when the
first character is a letter a–j in either case (the dot and whitespace are
optional). -/
def normalize_service_code (serviceText : String) : Option String :=
  if serviceText = "" then none
  else
    let t := pyStrip serviceText
    if t = "" then none
    else
      match t.data with
      | c :: _ =>
        if 'a' ≤ c.toLower ∧ c.toLower ≤ 'j' ∧ isAsciiAlpha c then
          some ⟨[c.toLower]⟩
        else if t.data.length = 1 ∧ 'a' ≤ c.toLower ∧ c.toLower ≤ 'j' then
          some (pyLower t)
        else none
      | [] => none

/-- Model of `import_csv.normalize_commercial_name(name)` for string
input. -/
def normalize_commercial_name (name : String) : Option String :=
  if name = "" then none
  else
    let n := pyStrip name
    if n = "" then none
    else if n = "e Toro" then some "eToro"
    else some n

/-- Model of `import_csv.parse_pipe_separated(value)` for string input. -/
def parse_pipe_separated (value : String) : List String :=
  if value = "" ∨ pyStrip value = "" then []
  else ((splitPipe value).map pyStrip).filter (· ≠ "")

/-- Model of `import_csv.fix_address_website_parsing(row)`, expressed over
the row's (already string-valued) address and website cells.  Returns the
(fixed_address, fixed_website) pair of optional strings. -/
def fix_address_website_parsing (address0 website0 : String) :
    Option String × Option String :=
  let address := pyStrip address0
  let website := pyStrip website0
  if website ≠ "" ∧ ¬ is_url website ∧ address ≠ "" then
    (some (address ++ ", " ++ website), none)
  else
    (if address ≠ "" then some address else none,
     if website ≠ "" then some website else none)

end MicaReg

namespace MicaReg

/-! ## config/registers.py and config/constants.py -/

inductive RegType
  | casp | other | art | emt | ncasp
deriving DecidableEq

/-- Configuration fields of `RegisterConfig` used by the cleaning engine
(the column mapping in dict insertion order, and the date format — all
registers use "%d/%m/%Y"). -/
structure RegisterConfig where
  registerType : RegType
  columnMapping : List (String × String)
  dateFormat : DateFmt

def COMMON_COLUMNS : List (String × String) :=
  [("ae_competentAuthority", "competent_authority"),
   ("ae_homeMemberState", "home_member_state"),
   ("ae_lei_name", "lei_name"),
   ("ae_lei", "lei"),
   ("ae_lei_cou_code", "lei_cou_code")]

def CASP_COLUMNS : List (String × String) :=
  COMMON_COLUMNS ++
  [("ae_commercial_name", "commercial_name"),
   ("ae_address", "address"),
   ("ae_website", "website"),
   ("ae_website_platform", "website_platform"),
   ("ac_authorisationNotificationDate", "authorisation_notification_date"),
   ("ac_authorisationEndDate", "authorisation_end_date"),
   ("ac_serviceCode", "services"),
   ("ac_serviceCode_cou", "passport_countries"),
   ("ac_comments", "comments"),
   ("ac_lastupdate", "last_update")]

def OTHER_COLUMNS : List (String × String) :=
  COMMON_COLUMNS ++
  [("ae_lei_name_casp", "lei_name_casp"),
   ("ae_lei_casp", "lei_casp"),
   ("ae_offerCode_cou", "offer_countries"),
   ("ae_DTI_FFG", "dti_ffg"),
   ("ae_DTI", "dti_codes"),
   ("wp_url", "white_paper_url"),
   ("wp_comments", "white_paper_comments"),
   ("wp_lastupdate", "white_paper_last_update")]

def ART_COLUMNS : List (String × String) :=
  COMMON_COLUMNS ++
  [("ae_commercial_name", "commercial_name"),
   ("ae_address", "address"),
   ("ae_website", "website"),
   ("ac_authorisationNotificationDate", "authorisation_notification_date"),
   ("ac_authorisationEndDate", "authorisation_end_date"),
   ("ae_credit_institution", "credit_institution"),
   ("wp_url", "white_paper_url"),
   ("wp_authorisationNotificationDate", "white_paper_notification_date"),
   ("wp_url_cou", "white_paper_offer_countries"),
   ("wp_comments", "white_paper_comments"),
   ("wp_lastupdate", "white_paper_last_update")]

def EMT_COLUMNS : List (String × String) :=
  COMMON_COLUMNS ++
  [("ae_commercial_name", "commercial_name"),
   ("ae_address", "address"),
   ("ae_website", "website"),
   ("ac_authorisationNotificationDate", "authorisation_notification_date"),
   ("ac_authorisationEndDate", "authorisation_end_date"),
   ("ae_exemption48_4", "exemption_48_4"),
   ("ae_exemption48_5", "exemption_48_5"),
   ("ae_authorisation_other_emt", "authorisation_other_emt"),
   ("ae_DTI_FFG", "dti_ffg"),
   ("ae_DTI", "dti_codes"),
   ("wp_url", "white_paper_url"),
   ("wp_authorisationNotificationDate", "white_paper_notification_date"),
   ("wp_comments", "white_paper_comments"),
   ("wp_lastupdate", "white_paper_last_update")]

def NCASP_COLUMNS : List (String × String) :=
  COMMON_COLUMNS ++
  [("ae_commercial_name", "commercial_name"),
   ("ae_website", "websites"),
   ("ae_infrigment", "infringement"),
   ("ae_reason", "reason"),
   ("ae_decision_date", "decision_date"),
   ("ae_comments", "comments"),
   ("ae_lastupdate", "last_update")]

def caspConfig : RegisterConfig := ⟨.casp, CASP_COLUMNS, .dmy⟩
def otherConfig : RegisterConfig := ⟨.other, OTHER_COLUMNS, .dmy⟩
def artConfig : RegisterConfig := ⟨.art, ART_COLUMNS, .dmy⟩
def emtConfig : RegisterConfig := ⟨.emt, EMT_COLUMNS, .dmy⟩
def ncaspConfig : RegisterConfig := ⟨.ncasp, NCASP_COLUMNS, .dmy⟩

/-- constants.MICA_SERVICE_DESCRIPTIONS. -/
def MICA_SERVICE_DESCRIPTIONS : List (String × String) :=
  [("a", "providing custody and administration of crypto-assets on behalf of clients"),
   ("b", "operation of a trading platform for crypto-assets"),
   ("c", "exchange of crypto-assets for funds"),
   ("d", "exchange of crypto-assets for other crypto-assets"),
   ("e", "execution of orders for crypto-assets on behalf of clients"),
   ("f", "placing of crypto-assets"),
   ("g", "reception and transmission of orders for crypto-assets on behalf of clients"),
   ("h", "providing advice on crypto-assets"),
   ("i", "providing portfolio management on crypto-assets"),
   ("j", "providing transfer services for crypto-assets on behalf of clients")]

/-- Python `MICA_SERVICE_DESCRIPTIONS.get(code, '')`. -/
def serviceDescGet (code : String) : String :=
  ((MICA_SERVICE_DESCRIPTIONS.find? (fun p => p.1 = code)).map Prod.snd).getD ""

/-! ## csv_clean.py: the cleaning engine -/

/-- One audit record of the cleaning engine (csv_clean.Change); `row` is
the recorded 1-based CSV row number (data starts at row 2). -/
structure Change where
  type : String
  row : Nat
  column : String
  oldValue : String
  newValue : String
deriving DecidableEq

/-- The cleaner's working DataFrame: loaded with dtype=str,
keep_default_na=False, na_filter=False, so every cell is a string. -/
structure Table where
  header : List String
  rows : List (List String)
deriving DecidableEq

/-- `row.get(col)` on a dtype=str row (missing columns do not occur at the
use sites: every fixer guards on column presence first). -/
def rowGet (header row : List String) (col : String) : String :=
  match header.indexOf? col with
  | some j => (row.get? j).getD ""
  | none => ""

/-- `self.df.at[idx, col] = v` restricted to one row. -/
def rowSet (header row : List String) (col : String) (v : String) : List String :=
  match header.indexOf? col with
  | some j => row.set j v
  | none => row

/-- Iterate `for idx, row in self.df.iterrows()` with a per-row transform
returning the updated row and its appended changes. -/
def mapRowsGo (f : Nat → List String → List String × List Change) :
    Nat → List (List String) → List (List String) × List Change
  | _, [] => ([], [])
  | i, r :: rs =>
    let p := f i r
    let q := mapRowsGo f (i + 1) rs
    (p.1 :: q.1, p.2 ++ q.2)

def mapRows (t : Table) (f : Nat → List String → List String × List Change) :
    Table × List Change :=
  let p := mapRowsGo f 0 t.rows
  ({ t with rows := p.1 }, p.2)

/-- Iterate a list of columns (outer loop `for col in ...`), threading the
table and accumulating changes. -/
def foldCols (cols : List String) (step : String → Table → Table × List Change)
    (t : Table) : Table × List Change :=
  cols.foldl (fun acc col =>
    let p := step col acc.1
    (p.1, acc.2 ++ p.2)) (t, [])

/-- `any(keyword in csv_col.lower() for keyword in kws)`. -/
def colHasKw (kws : List String) (col : String) : Bool :=
  kws.any (fun k => strContains (pyLower col) k)

/-- Date columns of a register: mapping keys whose lowercase form contains
"date" or "lastupdate". -/
def dateColumnsOf (cfg : RegisterConfig) : List String :=
  (cfg.columnMapping.map Prod.fst).filter
    (fun c => strContains (pyLower c) "date" || strContains (pyLower c) "lastupdate")

/-- CSVCleaner.fix_whitespace_globally. -/
def fix_whitespace_globally (cfg : RegisterConfig) (t : Table) :
    Table × List Change :=
  let dateCols := dateColumnsOf cfg
  foldCols t.header (fun col tb =>
    mapRows tb (fun idx row =>
      let original := rowGet tb.header row col
      let fixed := pyReplace original " " " "
      let fixed := pyStrip fixed
      let fixed :=
        if ¬ (col ∈ dateCols) ∧ col ≠ "ae_lei" then collapseWs fixed else fixed
      if fixed ≠ original then
        (rowSet tb.header row col fixed,
         [⟨"WHITESPACE_FIXED", idx + 2, col, pyTake 100 original, pyTake 100 fixed⟩])
      else (row, []))) t

/-- CSVCleaner.detect_and_fix_encoding_data_loss. -/
def detect_and_fix_encoding_data_loss (cfg : RegisterConfig) (t : Table) :
    Table × List Change :=
  let textCols := (cfg.columnMapping.map Prod.fst).filter
    (colHasKw ["address", "name", "authority", "comments", "website", "url",
               "reason", "infringement"])
  foldCols (textCols.filter (· ∈ t.header)) (fun col tb =>
    mapRows tb (fun idx row =>
      let text := rowGet tb.header row col
      if strContains text "�" || strContains text "ï¿½" then
        let fixed := fix_encoding_issues text
        if ¬ strContains fixed "�" ∧ ¬ strContains fixed "ï¿½" then
          (rowSet tb.header row col fixed,
           [⟨"ENCODING_DATA_LOSS_FIXED", idx + 2, col,
             pyTake 100 text, pyTake 100 fixed⟩])
        else
          let pos :=
            match pyFind text "�" with
            | some p => p
            | none => (pyFind text "ï¿½").getD 0
          let context := pySlice (pos - 10) (pos + 10) text
          (row,
           [⟨"ENCODING_DATA_LOSS_WARNING", idx + 2, col, context,
             "[WARNING: Replacement character detected - could not auto-fix, left as-is]"⟩])
      else (row, []))) t

/-- CSVCleaner.fix_encoding_issues (the table-level fixer; the value-level
function is `fix_encoding_issues` above, imported as fix_text_encoding). -/
def fix_encoding_issues_table (cfg : RegisterConfig) (t : Table) :
    Table × List Change :=
  let textCols := (cfg.columnMapping.map Prod.fst).filter
    (colHasKw ["address", "name", "authority", "comments", "reason", "infringement"])
  foldCols (textCols.filter (· ∈ t.header)) (fun col tb =>
    mapRows tb (fun idx row =>
      let original := rowGet tb.header row col
      let fixed := fix_encoding_issues original
      if fixed ≠ original then
        (rowSet tb.header row col fixed,
         [⟨"ENCODING_FIXED", idx + 2, col, pyTake 100 original, pyTake 100 fixed⟩])
      else (row, []))) t

/-- CSVCleaner.fix_dates. -/
def fix_dates (cfg : RegisterConfig) (t : Table) : Table × List Change :=
  foldCols ((dateColumnsOf cfg).filter (· ∈ t.header)) (fun col tb =>
    mapRows tb (fun idx row =>
      let dateStr := rowGet tb.header row col
      if pyStrip dateStr ≠ "" then
        let original := pyStrip dateStr
        match parse_date cfg.dateFormat original with
        | some d =>
          let formatted := strftime cfg.dateFormat d
          if formatted ≠ original then
            (rowSet tb.header row col formatted,
             [⟨"DATE_FIXED", idx + 2, col, original, formatted⟩])
          else (row, [])
        | none =>
          (row,
           [⟨"DATE_WARNING", idx + 2, col, original,
             "[WARNING: Could not parse date - left as-is, import_csv.py will attempt to fix]"⟩])
      else (row, [])) ) t

/-- Website URL-part normalisation inside fix_multiline_fields: keep parts
that look like URLs, give them an https scheme, deduplicate preserving
order. -/
def multilineUrlScan : List String → List String → List String → List String
  | [], _, urls => urls.reverse
  | part :: rest, seen, urls =>
    let part := pyStrip part
    if part ≠ "" ∧ (is_url part || pyStartsWith part "www." || strContains part ".") then
      let part :=
        if ¬ (pyStartsWith part "http://" || pyStartsWith part "https://") then
          if pyStartsWith part "www." then "https://" ++ part
          else if strContains part "." then "https://" ++ part
          else part
        else part
      if part ∈ seen then multilineUrlScan rest seen urls
      else multilineUrlScan rest (part :: seen) (part :: urls)
    else multilineUrlScan rest seen urls

/-- CSVCleaner.fix_multiline_fields. -/
def fix_multiline_fields (t : Table) : Table × List Change :=
  let websiteCol := t.header.find?
    (fun col => strContains (pyLower col) "website" || strContains (pyLower col) "url")
  let p1 :=
    match websiteCol with
    | some wc =>
      mapRows t (fun idx row =>
        let original := rowGet t.header row wc
        if strContains original "\n" || strContains original "\r" then
          let parts := splitWs original
          let urls := multilineUrlScan parts [] []
          let fixed := if urls ≠ [] then joinSep "|" urls else joinSep " " parts
          if fixed ≠ original then
            (rowSet t.header row wc fixed,
             [⟨"MULTILINE_WEBSITE_FIXED", idx + 2, wc,
               pyTake 100 original, pyTake 100 fixed⟩])
          else (row, [])
        else (row, []))
    | none => (t, [])
  let t1 := p1.1
  let textCols := t1.header.filter (colHasKw ["address", "comments", "reason"])
  let p2 := foldCols textCols (fun col tb =>
    mapRows tb (fun idx row =>
      let original := rowGet tb.header row col
      if strContains original "\n" || strContains original "\r" then
        let fixed := pyReplace original "\r\n" " "
        let fixed := pyReplace fixed "\n" " "
        let fixed := pyReplace fixed "\r" " "
        let fixed := pyStrip (collapseWs fixed)
        if fixed ≠ original then
          (rowSet tb.header row col fixed,
           [⟨"MULTILINE_FIXED", idx + 2, col, pyTake 100 original, pyTake 100 fixed⟩])
        else (row, [])
      else (row, []))) t1
  (p2.1, p1.2 ++ p2.2)

/-- CSVCleaner.normalize_country_codes (CASP only). -/
def normalize_country_codes (cfg : RegisterConfig) (t : Table) :
    Table × List Change :=
  if cfg.registerType ≠ .casp then (t, [])
  else if "ac_serviceCode_cou" ∉ t.header then (t, [])
  else
    mapRows t (fun idx row =>
      let value := rowGet t.header row "ac_serviceCode_cou"
      if pyStrip value ≠ "" then
        let original := pyStrip value
        let codes := splitSepWs original
        let normalized := codes.foldl (fun acc code =>
          let code := pyUpper (pyStrip code)
          if code = "" then acc
          else if code = "EL" then setInsert "EL" (setInsert "GR" acc)
          else setInsert code acc) []
        if normalized ≠ [] then
          let fixed := joinSep "|" (sortStrings normalized)
          if fixed ≠ original then
            (rowSet t.header row "ac_serviceCode_cou" fixed,
             [⟨"COUNTRY_CODE_NORMALIZED", idx + 2, "ac_serviceCode_cou",
               original, fixed⟩])
          else (row, [])
        else (row, [])
      else (row, []))

end MicaReg

namespace MicaReg

/-! ### CSVCleaner.fix_lei_format -/

/-- A pending entry of fix_lei_format's `warnings` list. -/
structure LeiWarn where
  row : Nat
  lei : String
  reason : String
deriving DecidableEq

/-- Outcome of processing one ae_lei cell: the (possibly) updated cell
value, the Change records appended during the row, and the warning entries
appended to the `warnings` list. -/
structure LeiOutcome where
  value : String
  changes : List Change
  warns : List LeiWarn
deriving DecidableEq

/-- Per-value logic of fix_lei_format for one row (the cell read back via
`str(row.get('ae_lei', '')).strip()` is `lei0`; `idx` is the 0-based row
index; `sci` abstracts `str(int(float(lei))).upper()`). -/
def fixLeiValue (sci : String → Option String) (idx : Nat) (lei0 : String) :
    LeiOutcome :=
  let lei := pyStrip lei0
  if lei = "" then ⟨lei0, [], []⟩
  else
    let original := lei
    -- Remove trailing dot
    let afterDot :=
      if pyEndsWith lei "." then
        let fixed := rstripDots lei
        some (fixed,
          [(⟨"LEI_TRAILING_DOT_REMOVED", idx + 2, "ae_lei", original, fixed⟩ : Change)])
      else none
    match afterDot with
    | some (fixed, cs) =>
      if leiPatternMatch fixed then ⟨fixed, cs, []⟩
      else fixLeiAfterDot sci idx original fixed cs
    | none => fixLeiAfterDot sci idx original lei []
where
  /-- The stages after the trailing-dot removal; `lei` is the current value
  (written to the cell if a change already happened), `cs` the changes so
  far. -/
  fixLeiAfterDot (sci : String → Option String) (idx : Nat)
      (original lei : String) (cs : List Change) : LeiOutcome :=
    -- Check for Excel scientific notation (e.g. 9.60E+19)
    if strContains (pyUpper lei) "E+" || strContains (pyUpper lei) "E-" then
      match sci lei with
      | some recovered =>
        if recovered.data.length = 20 then
          ⟨recovered,
           cs ++ [⟨"LEI_EXCEL_NOTATION_FIXED", idx + 2, "ae_lei", original, recovered⟩],
           []⟩
        else
          ⟨lei, cs,
           [⟨idx + 2, lei,
             "Excel scientific notation - recovered length " ++
             toString recovered.data.length ++ ", expected 20"⟩]⟩
      | none =>
        ⟨lei, cs, [⟨idx + 2, lei, "Excel scientific notation - cannot convert"⟩]⟩
    else
      -- Try removing all non-alphanumeric characters
      let cleaned := keepUpperAlnum (pyUpper lei)
      let afterClean :=
        if cleaned.data.length = 20 ∧ cleaned ≠ lei then
          (cleaned,
           cs ++ [(⟨"LEI_CLEANED", idx + 2, "ae_lei", original, cleaned⟩ : Change)], true)
        else (lei, cs, false)
      match afterClean with
      | (fixed, cs', changedNow) =>
        if changedNow ∧ leiPatternMatch fixed then ⟨fixed, cs', []⟩
        else if ¬ leiPatternMatch fixed then
          ⟨fixed, cs',
           [⟨idx + 2, fixed,
             "Invalid format (length: " ++ toString fixed.data.length ++
             ", expected: 20)"⟩]⟩
        else ⟨fixed, cs', []⟩

/-- Render one warnings-list entry as the LEI_WARNING Change appended after
the row loop. -/
def leiWarnChange (w : LeiWarn) : Change :=
  ⟨"LEI_WARNING", w.row, "ae_lei", w.lei,
   "[WARNING: " ++ w.reason ++ " - left as-is, import may skip this row]"⟩

/-- Row-loop worker for fix_lei_format: returns updated rows, the in-loop
changes and the collected warnings. -/
def leiRowsGo (sci : String → Option String) (header : List String) :
    Nat → List (List String) → List (List String) × List Change × List LeiWarn
  | _, [] => ([], [], [])
  | i, r :: rs =>
    let o := fixLeiValue sci i (rowGet header r "ae_lei")
    let r' := if o.changes ≠ [] then rowSet header r "ae_lei" o.value else r
    let q := leiRowsGo sci header (i + 1) rs
    (r' :: q.1, o.changes ++ q.2.1, o.warns ++ q.2.2)

/-- CSVCleaner.fix_lei_format: per-row repairs first, then every warning is
appended as a non-blocking LEI_WARNING change. -/
def fix_lei_format (sci : String → Option String) (t : Table) :
    Table × List Change :=
  if "ae_lei" ∉ t.header then (t, [])
  else
    let q := leiRowsGo sci t.header 0 t.rows
    ({ t with rows := q.1 }, q.2.1 ++ (q.2.2.map leiWarnChange))

/-- CSVCleaner.fix_address_website_parsing (table-level). -/
def fix_address_website_parsing_table (t : Table) : Table × List Change :=
  if "ae_address" ∉ t.header ∨ "ae_website" ∉ t.header then (t, [])
  else
    mapRows t (fun idx row =>
      let addrCell := rowGet t.header row "ae_address"
      let webCell := rowGet t.header row "ae_website"
      let fixedPair := fix_address_website_parsing addrCell webCell
      let originalAddress := pyStrip addrCell
      let originalWebsite := pyStrip webCell
      let (row, cs) :=
        match fixedPair.1 with
        | some fa =>
          if fa ≠ "" ∧ fa ≠ originalAddress then
            (rowSet t.header row "ae_address" fa,
             [(⟨"ADDRESS_PARSING_FIXED", idx + 2, "ae_address",
               pyTake 100 originalAddress, pyTake 100 fa⟩ : Change)])
          else (row, [])
        | none => (row, [])
      match fixedPair.2 with
      | some fw =>
        if fw ≠ originalWebsite then
          (rowSet t.header row "ae_website" (if fw ≠ "" then fw else ""),
           cs ++ [⟨"WEBSITE_PARSING_FIXED", idx + 2, "ae_website",
                   pyTake 100 originalWebsite, if fw ≠ "" then pyTake 100 fw else ""⟩])
        else (row, cs)
      | none => (row, cs))

/-- CSVCleaner.normalize_service_codes (CASP only). -/
def normalize_service_codes (cfg : RegisterConfig) (t : Table) :
    Table × List Change :=
  if cfg.registerType ≠ .casp then (t, [])
  else if "ac_serviceCode" ∉ t.header then (t, [])
  else
    mapRows t (fun idx row =>
      let cell := rowGet t.header row "ac_serviceCode"
      let serviceTexts := parse_pipe_separated cell
      let normalizedCodes := serviceTexts.foldl (fun acc st =>
        match normalize_service_code st with
        | some c => setInsert c acc
        | none => acc) []
      if normalizedCodes ≠ [] then
        let normalizedServices := joinSep " | "
          ((sortStrings normalizedCodes).map (fun c => c ++ ". " ++ serviceDescGet c))
        let original := cell
        if normalizedServices ≠ original then
          (rowSet t.header row "ac_serviceCode" normalizedServices,
           [⟨"SERVICE_CODE_NORMALIZED", idx + 2, "ac_serviceCode",
             pyTake 100 original, pyTake 100 normalizedServices⟩])
        else (row, [])
      else (row, []))

/-- CSVCleaner.normalize_commercial_names. -/
def normalize_commercial_names (t : Table) : Table × List Change :=
  if "ae_commercial_name" ∉ t.header then (t, [])
  else
    mapRows t (fun idx row =>
      let original := rowGet t.header row "ae_commercial_name"
      match normalize_commercial_name original with
      | some fixed =>
        if fixed ≠ original then
          (rowSet t.header row "ae_commercial_name" fixed,
           [⟨"COMMERCIAL_NAME_NORMALIZED", idx + 2, "ae_commercial_name",
             original, fixed⟩])
        else (row, [])
      | none => (row, []))

/-- CSVCleaner.fix_all_issues: the fixed fixer order (the former duplicate
LEI merge, step 8 of the source comments, was removed from the code and
preserves all rows). -/
def fix_all_issues (cfg : RegisterConfig) (sci : String → Option String)
    (t : Table) : Table × List Change :=
  let p1 := fix_whitespace_globally cfg t
  let p2 := detect_and_fix_encoding_data_loss cfg p1.1
  let p3 := fix_encoding_issues_table cfg p2.1
  let p4 := fix_dates cfg p3.1
  let p5 := fix_multiline_fields p4.1
  let p6 := normalize_country_codes cfg p5.1
  let p7 := fix_lei_format sci p6.1
  let p8 := fix_address_website_parsing_table p7.1
  let p9 := normalize_service_codes cfg p8.1
  let p10 := normalize_commercial_names p9.1
  (p10.1, p1.2 ++ p2.2 ++ p3.2 ++ p4.2 ++ p5.2 ++ p6.2 ++ p7.2 ++ p8.2 ++ p9.2 ++ p10.2)

end MicaReg

namespace MicaReg

/-! ## csv_validate.py: the validation engine -/

/-- A validation issue as serialised into the report (`Issue.to_dict`):
severity is the enum's string value. -/
structure Issue where
  severity : String
  code : String
  message : String
  column : Option String
  rows : List Nat
  examples : List String
deriving DecidableEq

def REQUIRED_COLUMNS : List String :=
  ["ae_lei", "ac_serviceCode", "ac_serviceCode_cou",
   "ac_authorisationNotificationDate", "ac_lastupdate"]

def DATE_COLUMNS : List String :=
  ["ac_authorisationNotificationDate", "ac_authorisationEndDate", "ac_lastupdate"]

def STATIC_COUNTRY_CODES : List String :=
  ["AT", "BE", "BG", "CY", "CZ", "DE", "DK", "EE", "ES", "FI", "FR", "GR",
   "HR", "HU", "IE", "IS", "IT", "LI", "LT", "LU", "LV", "MT", "NL", "NO",
   "PL", "PT", "RO", "SE", "SI", "SK", "EL", "GB", "UK", "CH"]

/-- Model of `validate_csv_structure`: classify the raw parsed rows against
the header width; rows with a different field count are recorded as
mismatched and padded / truncated to header width so later checks can still
run.  Returns (rows, mismatched row numbers). -/
def structurePad (headerLen : Nat) (row : List String) : List String :=
  if row.length < headerLen then row ++ List.replicate (headerLen - row.length) ""
  else row.take headerLen

def structureRows (header : List String) (rawRows : List (List String)) :
    List (List String) × List Nat :=
  let go := rawRows.foldl (fun (acc : List (List String) × List Nat × Nat) row =>
    let rowNum := acc.2.2
    if row.length = header.length then
      (acc.1 ++ [row], acc.2.1, rowNum + 1)
    else
      (acc.1 ++ [structurePad header.length row], acc.2.1 ++ [rowNum], rowNum + 1))
    ([], [], 2)
  (go.1, go.2.1)

/-- The ROW_COLUMN_COUNT_MISMATCH issue (with the re-read preview
examples). -/
def structureIssues (header : List String) (rawRows : List (List String)) :
    List Issue :=
  let mismatched := (structureRows header rawRows).2
  if mismatched ≠ [] then
    let examples := (mismatched.take 3).map (fun n =>
      "Row " ++ toString n ++ ": " ++
      pyTake 120 (joinSep " " (((rawRows.get? (n - 2)).getD []).take 3)) ++ "...")
    [⟨"ERROR", "ROW_COLUMN_COUNT_MISMATCH",
      "Found " ++ toString mismatched.length ++ " row(s) with column count mismatch",
      none, mismatched, examples⟩]
  else []

/-- Model of `validate_schema`. -/
def validate_schema (header : List String) : List Issue :=
  let missing := REQUIRED_COLUMNS.filter (· ∉ header)
  let i1 : List Issue :=
    if missing ≠ [] then
      [⟨"ERROR", "SCHEMA_MISSING_COLUMN",
        "Missing required columns: " ++ joinSep ", " missing,
        none, [], missing⟩]
    else []
  let dups := (header.foldl (fun (acc : List String × List String) col =>
    let cs := pyStrip col
    if cs ∈ acc.1 then (acc.1, acc.2 ++ [cs]) else (acc.1 ++ [cs], acc.2))
    ([], [])).2
  let i2 : List Issue :=
    if dups ≠ [] then
      [⟨"ERROR", "SCHEMA_DUPLICATE_COLUMN",
        "Duplicate column names found: " ++ joinSep ", " dups,
        none, [], dups⟩]
    else []
  let wsCols := header.filter (fun col => col ≠ pyStrip col)
  let i3 : List Issue :=
    if wsCols ≠ [] then
      [⟨"WARNING", "SCHEMA_HEADER_WHITESPACE",
        "Columns with leading/trailing whitespace: " ++ toString wsCols.length,
        none, [], wsCols.take 5⟩]
    else []
  i1 ++ i2 ++ i3

/-- Cell of a padded validation row (`row[col_idx]`, guarded by
`col_idx >= len(row): continue` at every use site). -/
def vCell (row : List String) (idx : Nat) : Option String := row.get? idx

/-- Model of `validate_lei_format`. -/
def validate_lei_format (header : List String) (rows : List (List String)) :
    List Issue :=
  match header.indexOf? "ae_lei" with
  | none => []
  | some leiIdx =>
    let scan := rows.foldl (fun (acc : List Nat × List String × Nat) row =>
      let rowNum := acc.2.2
      match vCell row leiIdx with
      | none => (acc.1, acc.2.1, rowNum + 1)
      | some cell =>
        let lei := pyStrip cell
        if lei ≠ "" ∧ ¬ leiPatternMatch lei then
          (acc.1 ++ [rowNum],
           (if acc.2.1.length < 5 then acc.2.1 ++ [pyTake 50 lei] else acc.2.1),
           rowNum + 1)
        else (acc.1, acc.2.1, rowNum + 1)) ([], [], 2)
    if scan.1 ≠ [] then
      [⟨"ERROR", "LEI_INVALID_FORMAT",
        "Found " ++ toString scan.1.length ++
        " LEI(s) with invalid format (must be 20 alphanumeric characters)",
        some "ae_lei", scan.1, scan.2.1⟩]
    else []

/-- Insertion-ordered multimap update for `validate_duplicate_lei`. -/
def leiCountAdd (m : List (String × List Nat)) (lei : String) (rowNum : Nat) :
    List (String × List Nat) :=
  if m.any (fun p => p.1 = lei) then
    m.map (fun p => if p.1 = lei then (p.1, p.2 ++ [rowNum]) else p)
  else m ++ [(lei, [rowNum])]

/-- Model of `validate_duplicate_lei`. -/
def validate_duplicate_lei (header : List String) (rows : List (List String)) :
    List Issue :=
  match header.indexOf? "ae_lei" with
  | none => []
  | some leiIdx =>
    let counts := (rows.foldl (fun (acc : List (String × List Nat) × Nat) row =>
      let rowNum := acc.2
      match vCell row leiIdx with
      | none => (acc.1, rowNum + 1)
      | some cell =>
        let lei := pyStrip cell
        if lei ≠ "" then (leiCountAdd acc.1 lei rowNum, rowNum + 1)
        else (acc.1, rowNum + 1)) ([], 2)).1
    let dups := counts.filter (fun p => p.2.length > 1)
    if dups ≠ [] then
      let exampleLeis := (dups.map Prod.fst).take 5
      let allDupRows := dups.foldl (fun acc p => acc ++ p.2) []
      [⟨"WARNING", "LEI_DUPLICATE",
        "Found " ++ toString dups.length ++ " duplicate LEI(s) across " ++
        toString allDupRows.length ++ " rows",
        some "ae_lei", allDupRows.take 20, exampleLeis⟩]
    else []

/-- Per-column scan of `validate_dates`: returns (unparsable rows+examples,
repairable rows+examples). -/
def dateColScan (colIdx : Nat) (rows : List (List String)) :
    (List Nat × List String) × (List Nat × List String) :=
  (rows.foldl (fun (acc : (List Nat × List String) × (List Nat × List String) × Nat) row =>
    let rowNum := acc.2.2
    match vCell row colIdx with
    | none => (acc.1, acc.2.1, rowNum + 1)
    | some cell =>
      let value := pyStrip cell
      if value = "" then (acc.1, acc.2.1, rowNum + 1)
      else
        let info := classify_date value
        if ¬ info.ok then
          if info.repairable then
            ((acc.1.1, acc.1.2),
             (acc.2.1.1 ++ [rowNum],
              if acc.2.1.2.length < 3 then
                acc.2.1.2 ++ [value ++ " → " ++ info.normalizedHint.getD ""]
              else acc.2.1.2),
             rowNum + 1)
          else
            ((acc.1.1 ++ [rowNum],
              if acc.1.2.length < 3 then acc.1.2 ++ [value] else acc.1.2),
             acc.2.1, rowNum + 1)
        else (acc.1, acc.2.1, rowNum + 1))
    (([], []), ([], []), 2)) |> (fun r => (r.1, r.2.1))

/-- Model of `validate_dates`: all repairable (WARNING) issues come before
all unparsable (ERROR) issues. -/
def validate_dates (header : List String) (rows : List (List String)) :
    List Issue :=
  let results := DATE_COLUMNS.filterMap (fun col =>
    (header.indexOf? col).map (fun idx => (col, dateColScan idx rows)))
  let repairables := results.filter (fun r => r.2.2.1 ≠ [])
  let unparsables := results.filter (fun r => r.2.1.1 ≠ [])
  (repairables.map (fun r =>
    (⟨"WARNING", "DATE_NEEDS_NORMALIZATION",
      "Column '" ++ r.1 ++ "': " ++ toString r.2.2.1.length ++
      " date(s) need normalization (e.g., dot before year)",
      some r.1, r.2.2.1, r.2.2.2⟩ : Issue))) ++
  (unparsables.map (fun r =>
    (⟨"ERROR", "DATE_UNPARSABLE",
      "Column '" ++ r.1 ++ "': " ++ toString r.2.1.1.length ++ " unparsable date(s)",
      some r.1, r.2.1.1, r.2.1.2⟩ : Issue)))

/-- Model of `extract_service_codes`. -/
def extract_service_codes (serviceText : String) : List String × Bool :=
  if serviceText = "" ∨ pyStrip serviceText = "" then ([], false)
  else
    (splitPipeSemiComma serviceText).foldl (fun (acc : List String × Bool) part0 =>
      let part := pyStrip part0
      if part = "" then acc
      else
        match part.data with
        | c :: _ =>
          if isAsciiAlpha c ∧ 'a' ≤ c.toLower ∧ c.toLower ≤ 'j' then
            let code : String := ⟨[c.toLower]⟩
            (if code ∈ acc.1 then acc.1 else acc.1 ++ [code], acc.2)
          else if part.data.length = 1 ∧ 'a' ≤ c.toLower ∧ c.toLower ≤ 'j' then
            let code := pyLower part
            (if code ∈ acc.1 then acc.1 else acc.1 ++ [code], acc.2)
          else if part.data.any (fun d => 'k' ≤ d.toLower ∧ d.toLower ≤ 'z') then
            (acc.1, true)
          else acc
        | [] => acc) ([], false)

/-- Model of `validate_service_codes`. -/
def validate_service_codes (header : List String) (rows : List (List String)) :
    List Issue :=
  match header.indexOf? "ac_serviceCode" with
  | none => []
  | some colIdx =>
    let scan := rows.foldl
      (fun (acc : (List Nat × List String) × (List Nat × List String) × Nat) row =>
        let rowNum := acc.2.2
        match vCell row colIdx with
        | none => (acc.1, acc.2.1, rowNum + 1)
        | some cell =>
          let value := pyStrip cell
          if value = "" then (acc.1, acc.2.1, rowNum + 1)
          else
            let r := extract_service_codes value
            if r.1 = [] then
              ((acc.1.1 ++ [rowNum],
                if acc.1.2.length < 3 then acc.1.2 ++ [pyTake 100 value] else acc.1.2),
               acc.2.1, rowNum + 1)
            else if r.2 then
              (acc.1,
               (acc.2.1.1 ++ [rowNum],
                if acc.2.1.2.length < 3 then acc.2.1.2 ++ [pyTake 100 value]
                else acc.2.1.2),
               rowNum + 1)
            else (acc.1, acc.2.1, rowNum + 1))
      (([], []), ([], []), 2)
    let invalid := scan.1
    let suspicious := scan.2.1
    (if invalid.1 ≠ [] then
      [(⟨"ERROR", "SERVICE_CODE_INVALID",
        "Found " ++ toString invalid.1.length ++
        " row(s) with invalid service codes (no valid codes a-j found)",
        some "ac_serviceCode", invalid.1, invalid.2⟩ : Issue)]
     else []) ++
    (if suspicious.1 ≠ [] then
      [(⟨"WARNING", "SERVICE_CODE_SUSPICIOUS_FORMAT",
        "Found " ++ toString suspicious.1.length ++
        " row(s) with suspicious service code format (contains letters outside a-j)",
        some "ac_serviceCode", suspicious.1, suspicious.2⟩ : Issue)]
     else [])

/-- Model of `validate_country_code`; `pyLookup = some f` models an
available pycountry lookup, `none` the static fallback set. -/
def validate_country_code (pyLookup : Option (String → Bool)) (code : String) :
    Bool :=
  let c := pyUpper (pyStrip code)
  if ¬ (c.data.length = 2 ∧ c.data.all isAsciiUpperAlpha) then false
  else if c = "EL" then true
  else
    match pyLookup with
    | some f => f c
    | none => c ∈ STATIC_COUNTRY_CODES

/-- First invalid token of a country-codes cell (the row loop `break`s
after the first invalid token). -/
def firstInvalidCountry (pyLookup : Option (String → Bool)) :
    List String → Option String
  | [] => none
  | tok :: rest =>
    let code := pyStrip tok
    if code = "" then firstInvalidCountry pyLookup rest
    else if ¬ validate_country_code pyLookup code then some code
    else firstInvalidCountry pyLookup rest

/-- Model of `validate_country_codes`. -/
def validate_country_codes (pyLookup : Option (String → Bool))
    (header : List String) (rows : List (List String)) : List Issue :=
  let base :=
    match header.indexOf? "ac_serviceCode_cou" with
    | none => []
    | some colIdx =>
      let scan := rows.foldl (fun (acc : List Nat × List String × Nat) row =>
        let rowNum := acc.2.2
        match vCell row colIdx with
        | none => (acc.1, acc.2.1, rowNum + 1)
        | some cell =>
          let value := pyStrip cell
          if value = "" then (acc.1, acc.2.1, rowNum + 1)
          else
            match firstInvalidCountry pyLookup (splitPipeSemiComma value) with
            | some code =>
              (acc.1 ++ [rowNum],
               if acc.2.1.length < 5 then acc.2.1 ++ [code] else acc.2.1,
               rowNum + 1)
            | none => (acc.1, acc.2.1, rowNum + 1)) ([], [], 2)
      if scan.1 ≠ [] then
        [(⟨"ERROR", "COUNTRY_CODE_INVALID",
          "Found " ++ toString scan.1.length ++ " row(s) with invalid country codes",
          some "ac_serviceCode_cou", scan.1, scan.2.1⟩ : Issue)]
      else []
  base ++
  (if pyLookup.isNone then
    [(⟨"WARNING", "COUNTRY_CODE_VALIDATION_PARTIAL",
      "Country code validation is partial (pycountry not available, using static EU+EEA+UK+CH set)",
      none, [], []⟩ : Issue)]
   else [])

/-- Model of `validate_multiline_fields` (column-outer, row-inner scan). -/
def validate_multiline_fields (header : List String) (rows : List (List String)) :
    List Issue :=
  let websiteCol : Option String :=
    if "ae_website" ∈ header then some "ae_website" else none
  let scan := (header.foldl
    (fun (acc : ((List (Nat × String) × List String) ×
                 (List (Nat × String) × List String)) × Nat) colName =>
      let colIdx := acc.2
      let inner := rows.foldl
        (fun (a : ((List (Nat × String) × List String) ×
                   (List (Nat × String) × List String)) × Nat) row =>
          let rowNum := a.2
          match vCell row colIdx with
          | none => (a.1, rowNum + 1)
          | some value =>
            if strContains value "\n" || strContains value "\r" then
              let preview := pyTake 80
                (pyReplace (pyReplace value "\n" "\\n") "\r" "\\r")
              if some colName = websiteCol then
                (((a.1.1.1 ++ [(rowNum, colName)],
                   if a.1.1.2.length < 3 then
                     a.1.1.2 ++ ["Row " ++ toString rowNum ++ ": " ++ preview ++ "..."]
                   else a.1.1.2),
                  a.1.2), rowNum + 1)
              else
                ((a.1.1,
                  (a.1.2.1 ++ [(rowNum, colName)],
                   if a.1.2.2.length < 3 then
                     a.1.2.2 ++ ["Row " ++ toString rowNum ++ ", " ++ colName ++ ": " ++
                                 preview ++ "..."]
                   else a.1.2.2)), rowNum + 1)
            else (a.1, rowNum + 1)) (acc.1, 2)
      (inner.1, colIdx + 1)) ((([], []), ([], [])), 0)).1
  let web := scan.1
  let other := scan.2
  (if web.1 ≠ [] then
    [(⟨"WARNING", "MULTILINE_WEBSITE",
      "Found " ++ toString web.1.length ++ " row(s) with multiline website fields",
      some "ae_website", (web.1.take 20).map Prod.fst, web.2⟩ : Issue)]
   else []) ++
  (if other.1 ≠ [] then
    [(⟨"ERROR", "MULTILINE_FIELD",
      "Found " ++ toString other.1.length ++
      " row(s) with multiline fields in non-website columns",
      none, (other.1.take 20).map Prod.fst, other.2⟩ : Issue)]
   else [])

end MicaReg

namespace MicaReg

/-- Per-column row scan of `validate_encoding`, with the source's early
`break` after appending an example (whether from the replacement-character
check or from the mojibake-pattern check). -/
def encScanRows (colName : String) (colIdx : Nat) :
    Nat → List (List String) →
    (List (Nat × String) × List String) → (List (Nat × String) × List String)
  | _, [], st => st
  | rowNum, row :: rest, st =>
    match vCell row colIdx with
    | none => encScanRows colName colIdx (rowNum + 1) rest st
    | some value =>
      let hasRep := strContains value "�" || strContains value "ï¿½"
      let st1 :=
        if hasRep then ((st.1 ++ [(rowNum, colName)], st.2)) else st
      if hasRep ∧ st1.2.length < 5 then
        -- example added, then `break`: the remaining rows of this column
        -- are not scanned
        let idx :=
          match pyFind value "�" with
          | some p => p
          | none => (pyFind value "ï¿½").getD 0
        let context := pySlice (idx - 10) (idx + 10) value
        (st1.1,
         st1.2 ++ ["Row " ++ toString rowNum ++ ", " ++ colName ++ ": ..." ++
                   context ++ "..."])
      else
        let hasMoji := strContains value "Ã" || strContains value "Â"
        let st2 :=
          if hasMoji then ((st1.1 ++ [(rowNum, colName)], st1.2)) else st1
        if hasMoji ∧ st2.2.length < 5 then
          let pat :=
            (["Ã¤", "Ã¶", "Ã¼", "Ã", "Â"].find? (strContains value ·)).getD "Ã"
          let idx := (pyFind value pat).getD 0
          let context := pySlice (idx - 10) (idx + 20) value
          (st2.1,
           st2.2 ++ ["Row " ++ toString rowNum ++ ", " ++ colName ++ ": ..." ++
                     context ++ "..."])
        else encScanRows colName colIdx (rowNum + 1) rest st2

/-- Model of `validate_encoding`. -/
def validate_encoding (header : List String) (rows : List (List String)) :
    List Issue :=
  let scan := (header.foldl
    (fun (acc : (List (Nat × String) × List String) × Nat) colName =>
      (encScanRows colName acc.2 2 rows acc.1, acc.2 + 1)) (([], []), 0)).1
  if scan.1 ≠ [] then
    [⟨"WARNING", "ENCODING_SUSPECT",
      "Found " ++ toString scan.1.length ++
      " row(s) with potential encoding issues (replacement characters or UTF-8 mis-decoding)",
      none, (scan.1.take 20).map Prod.fst, scan.2⟩]
  else []

/-- The full issue list produced by `validate_csv` (before `to_dict`); the
input is the parsed CSV as raw rows plus header, `pyLookup` abstracts
pycountry availability. -/
def validateIssues (pyLookup : Option (String → Bool)) (header : List String)
    (rawRows : List (List String)) : List Issue :=
  let rows := (structureRows header rawRows).1
  structureIssues header rawRows ++
  validate_schema header ++
  validate_lei_format header rows ++
  validate_duplicate_lei header rows ++
  validate_dates header rows ++
  validate_service_codes header rows ++
  validate_country_codes pyLookup header rows ++
  validate_multiline_fields header rows ++
  validate_encoding header rows

/-- `Issue.to_dict(max_examples)`: truncate rows and examples (a zero
max_examples is falsy and keeps everything). -/
def issueToDict (maxExamples : Nat) (i : Issue) : Issue :=
  if maxExamples = 0 then i
  else { i with rows := i.rows.take maxExamples,
                examples := i.examples.take maxExamples }

/-- The `issues` list of the JSON report returned by `validate_csv`
(`max_examples` defaults to 5). -/
def validationReportIssues (pyLookup : Option (String → Bool))
    (header : List String) (rawRows : List (List String))
    (maxExamples : Nat) : List Issue :=
  (validateIssues pyLookup header rawRows).map (issueToDict maxExamples)

end MicaReg

namespace MicaReg

/-! ## remediation/schemas.py -/

inductive TaskType
  | encodingFix | countryNormalize | websiteFix | dateFix | addressFix
deriving DecidableEq

/-- The string value of a TaskType (pydantic use_enum_values). -/
def taskTypeVal : TaskType → String
  | .encodingFix => "ENCODING_FIX"
  | .countryNormalize => "COUNTRY_NORMALIZE"
  | .websiteFix => "WEBSITE_FIX"
  | .dateFix => "DATE_FIX"
  | .addressFix => "ADDRESS_FIX"

inductive TransformationType
  | encodingFix | countryNormalize | websiteFix | dateFix | addressFix
deriving DecidableEq

def transformationVal : TransformationType → String
  | .encodingFix => "ENCODING_FIX"
  | .countryNormalize => "COUNTRY_NORMALIZE"
  | .websiteFix => "WEBSITE_FIX"
  | .dateFix => "DATE_FIX"
  | .addressFix => "ADDRESS_FIX"

inductive RiskLevel
  | low | medium | high
deriving DecidableEq

def riskVal : RiskLevel → String
  | .low => "LOW"
  | .medium => "MEDIUM"
  | .high => "HIGH"

structure RowIdentifier where
  lei : Option String
  competent_authority : Option String
  service_country : Option String
  synthetic_id : Option String
deriving DecidableEq

/-- TaskContext.context with its pydantic total-length validator applied at
construction. -/
structure TaskContext where
  context : List (String × String)
deriving DecidableEq

/-- The `validate_context_length` field validator: if the summed value
lengths exceed 2000, keep whole values while they fit and truncate the
first overflowing one with an ellipsis, dropping the rest. -/
def ctxTruncGo : List (String × String) → Nat → List (String × String)
  | [], _ => []
  | (k, val) :: rest, cur =>
    if cur + val.data.length > 2000 then
      [(k, pyTake (2000 - cur) val ++ "...")]
    else (k, val) :: ctxTruncGo rest (cur + val.data.length)

def taskContextValidate (v : List (String × String)) : List (String × String) :=
  if (v.map (fun p => p.2.data.length)).sum > 2000 then ctxTruncGo v 0 else v

/-- remediation task (metadata dict flattened into explicit fields). -/
structure RemediationTask where
  task_id : String
  task_type : TaskType
  row_identifier : RowIdentifier
  column : String
  current_value : String
  issue_description : String
  context : TaskContext
  severity : String
  metadata_issue_code : String
  metadata_row_number : Nat
  metadata_row_index : Nat
  metadata_example : Option String
deriving DecidableEq

/-- Proposal confidence values are modelled as rationals (the policy and
auto-apply checks only compare them against fixed thresholds). -/
structure PatchProposal where
  task_id : String
  proposed_value : String
  confidence : ℚ
  reasoning : String
  transformation_type : TransformationType
  risk_level : RiskLevel
deriving DecidableEq

inductive MetaVal
  | s (v : String)
  | n (v : Nat)
  | sl (v : List String)
deriving DecidableEq

structure RemediationPatch where
  patch_id : String
  model_name : String
  tasks : List PatchProposal
  metadata : List (String × MetaVal)
deriving DecidableEq

structure AppliedChange where
  task_id : String
  column : String
  row_index : Nat
  old_value : String
  new_value : String
  confidence : ℚ
  reasoning : String
  transformation_type : String
  risk_level : String
  applied_at : String
deriving DecidableEq

/-- A rejected_changes entry; the source appends dicts with different key
sets, modelled by optional fields (`reason` is present in every variant). -/
structure RejectedChange where
  task_id : String
  column : Option String
  current_value : Option String
  proposed_value : Option String
  reason : String
  confidence : Option ℚ
  risk_level : Option String
deriving DecidableEq

structure PatchApplyResult where
  patch_id : String
  applied_count : Nat
  rejected_count : Nat
  skipped_count : Nat
  applied_changes : List AppliedChange
  rejected_changes : List RejectedChange
  errors : List String
deriving DecidableEq

/-! ## remediation/policy.py -/

def TRANSFORMATION_RISK_LEVELS : List (TransformationType × RiskLevel) :=
  [(.encodingFix, .low), (.countryNormalize, .low), (.websiteFix, .low),
   (.dateFix, .medium), (.addressFix, .medium)]

/-- FORBIDDEN_COLUMNS: the LLM cannot modify these. -/
def FORBIDDEN_COLUMNS : List String := ["ae_lei"]

/-- FORBIDDEN_TRANSFORMATIONS (currently empty). -/
def FORBIDDEN_TRANSFORMATIONS : List TransformationType := []

def is_allowed_transformation (tt : TransformationType) : Bool :=
  tt ∉ FORBIDDEN_TRANSFORMATIONS

def is_allowed_column (column : String) : Bool :=
  column ∉ FORBIDDEN_COLUMNS

def get_risk_level (tt : TransformationType) : RiskLevel :=
  ((TRANSFORMATION_RISK_LEVELS.find? (fun p => p.1 = tt)).map Prod.snd).getD .high

/-- RemediationPolicy.validate_proposal.  (The confidence value inside the
too-low message is rendered with Lean's rational printer rather than
Python's float repr; no theorem inspects that message.)  The final
risk-level-vs-transformation comparison of the source is a `pass`
(non-blocking) and has no effect. -/
def validate_proposal (proposal : PatchProposal) (currentValue column : String) :
    Bool × Option String :=
  if ¬ is_allowed_transformation proposal.transformation_type then
    (false, some ("Forbidden transformation type: " ++
                  transformationVal proposal.transformation_type))
  else if ¬ is_allowed_column column then
    (false, some ("Forbidden column: " ++ column ++ ". LLM cannot modify this column."))
  else if column = "ae_lei" ∧
          rstripDots (pyStrip currentValue) ≠ rstripDots (pyStrip proposal.proposed_value) then
    (false, some "LEI value cannot be changed (only trivial trimming allowed, prefer deterministic cleaning)")
  else if proposal.confidence < mkRat 1 2 then
    (false, some ("Confidence too low: " ++ toString proposal.confidence ++
                  " (minimum 0.5)"))
  else (true, none)

/-- RemediationPolicy.can_auto_apply. -/
def can_auto_apply (proposal : PatchProposal) (threshold : ℚ) : Bool :=
  if proposal.risk_level ≠ .low then false
  else if proposal.confidence < threshold then false
  else true

end MicaReg

namespace MicaReg

/-! ## remediation working tables (pandas default loading: cells may be NaN) -/

/-- A DataFrame loaded with pandas defaults: a cell is `none` for NaN.
Numeric cells are modelled by their string rendering. -/
structure DataTable where
  header : List String
  rows : List (List (Option String))
deriving DecidableEq

/-- `row.get(col)` with no default: `none` both for a missing column and
for NaN (`some none` vs `none` distinguished by dCellRaw below where the
Python default argument matters). -/
def dCellRaw (header : List String) (row : List (Option String)) (col : String) :
    Option (Option String) :=
  match header.indexOf? col with
  | some j =>
    match row.get? j with
    | some o => some o
    | none => some none
  | none => none

/-- `str(row.get(col, '')).strip() if pd.notna(row.get(col)) else ''`
(the task generator's and patch applicator's current-value read). -/
def dCurrentValue (header : List String) (row : List (Option String))
    (col : String) : String :=
  match dCellRaw header row col with
  | some (some s) => pyStrip s
  | _ => ""

/-- `str(row.get(col, ''))` with the default (used by from_row key fields:
missing column → '', NaN → 'nan'). -/
def dKeyField (header : List String) (row : List (Option String))
    (col : String) : String :=
  match dCellRaw header row col with
  | some (some s) => s
  | some none => "nan"
  | none => ""

/-- `df[col].astype(str).str.strip()` on one cell (NaN renders as "nan"). -/
def astypeStrStrip (o : Option String) : String := pyStrip (o.getD "nan")

/-! ## remediation/row_identifier.py -/

/-- RowIdentifierGenerator.from_row; `h` abstracts hashlib.sha256 hex
digests. -/
def from_row (h : String → String) (header : List String)
    (row : List (Option String)) (rowIndex : Nat) : RowIdentifier :=
  let lei : Option String :=
    match dCellRaw header row "ae_lei" with
    | some (some s) => some (pyStrip s)
    | _ => none
  let competentAuthority : Option String :=
    match dCellRaw header row "ae_competentAuthority" with
    | some (some s) => some (pyStrip s)
    | _ => none
  let serviceCountry : Option String :=
    match dCellRaw header row "ac_serviceCode_cou" with
    | some (some s) => some (pyStrip s)
    | _ => none
  match lei with
  | some l =>
    if l ≠ "" ∧ pyLower l ≠ "nan" then
      ⟨some l, competentAuthority, serviceCountry, none⟩
    else
      fromRowSynthetic h header row rowIndex competentAuthority serviceCountry
  | none => fromRowSynthetic h header row rowIndex competentAuthority serviceCountry
where
  fromRowSynthetic (h : String → String) (header : List String)
      (row : List (Option String)) (rowIndex : Nat)
      (competentAuthority serviceCountry : Option String) : RowIdentifier :=
    let keyString := joinSep "|"
      [dKeyField header row "ae_lei_name",
       dKeyField header row "ae_commercial_name",
       dKeyField header row "ae_competentAuthority",
       dKeyField header row "ae_homeMemberState",
       toString rowIndex]
    ⟨none, competentAuthority, serviceCountry, some (pyTake 16 (h keyString))⟩

/-- Python truthiness of an Optional[str]. -/
def optTruthy : Option String → Bool
  | some s => s ≠ ""
  | none => false

/-- RowIdentifierGenerator.find_row_by_identifier.  `.error ()` models the
KeyError raised by a column access on a DataFrame lacking that column
(caught by the patch applicator's per-proposal try block); the synthetic-id
fallback of the docstring is not implemented: without a usable LEI the
function returns None. -/
def find_row_by_identifier (df : DataTable) (ident : RowIdentifier) :
    Except Unit (Option Nat) :=
  if optTruthy ident.lei then
    let l := ident.lei.getD ""
    match df.header.indexOf? "ae_lei" with
    | none => .error ()
    | some leiIdx =>
      let ms := df.rows.enum.filter
        (fun p => astypeStrStrip ((p.2.get? leiIdx).join) = l)
      if ms.length = 1 then .ok (ms.head?.map Prod.fst)
      else if ms.length > 1 then
        if optTruthy ident.competent_authority ∧ optTruthy ident.service_country then
          match df.header.indexOf? "ae_competentAuthority",
                df.header.indexOf? "ac_serviceCode_cou" with
          | some caIdx, some scIdx =>
            let m2 := ms.filter (fun p =>
              astypeStrStrip ((p.2.get? caIdx).join) = ident.competent_authority.getD "" ∧
              astypeStrStrip ((p.2.get? scIdx).join) = ident.service_country.getD "")
            if m2.length = 1 then .ok (m2.head?.map Prod.fst) else .ok none
          | _, _ => .error ()
        else .ok none
      else .ok none
  else .ok none

/-! ## remediation/tasks.py -/

def ISSUE_CODE_TO_TASK_TYPE : List (String × TaskType) :=
  [("ENCODING_DATA_LOSS", .encodingFix),
   ("ENCODING_ISSUE", .encodingFix),
   ("ENCODING_SUSPECT", .encodingFix),
   ("DATE_UNPARSABLE", .dateFix),
   ("DATE_NEEDS_NORMALIZATION", .dateFix),
   ("COUNTRY_CODE_INVALID", .countryNormalize),
   ("WEBSITE_MULTILINE", .websiteFix),
   ("MULTILINE_WEBSITE", .websiteFix),
   ("ADDRESS_PARSING_ISSUE", .addressFix),
   ("MULTILINE_FIELD", .addressFix)]

def issueCodeToTaskType (code : String) : Option TaskType :=
  (ISSUE_CODE_TO_TASK_TYPE.find? (fun p => p.1 = code)).map Prod.snd

def CONTEXT_COLUMNS_BY_TASK_TYPE : TaskType → List String
  | .encodingFix =>
    ["ae_commercial_name", "ae_address", "ae_lei_name", "ac_competentAuthority",
     "ac_comments"]
  | .countryNormalize => ["ae_homeMemberState", "ac_serviceCode_cou"]
  | .websiteFix => ["ae_website", "ae_commercial_name"]
  | .dateFix =>
    ["ac_authorisationNotificationDate", "ac_authorisationEndDate", "ac_lastupdate"]
  | .addressFix => ["ae_address", "ae_website", "ae_commercial_name"]

/-- Context assembly for one task (the per-column 500-char cap). -/
def buildContextData (df : DataTable) (row : List (Option String))
    (contextColumns : List String) : List (String × String) :=
  contextColumns.foldl (fun acc col =>
    if col ∈ df.header then
      let value := dCurrentValue df.header row col
      let value :=
        if value.data.length > 500 then pyTake 500 value ++ "..." else value
      acc ++ [(col, value)]
    else acc) []

/-- Inner row loop of generate_tasks for one issue; `uuid` supplies the
task ids (uuid4 defaults), indexed by the running task count. -/
def genTasksRows (h : String → String) (uuid : Nat → String) (df : DataTable)
    (maxTasks : Nat) (issue : Issue) (taskType : TaskType) (column : String)
    (severity : String) : List Nat → List RemediationTask → List RemediationTask
  | [], tasks => tasks
  | rowNum :: rest, tasks =>
    if tasks.length ≥ maxTasks then tasks
    else
      -- row_index = row_num - 2; negative or out of range rows are skipped
      if rowNum < 2 ∨ df.rows.length ≤ rowNum - 2 then
        genTasksRows h uuid df maxTasks issue taskType column severity rest tasks
      else
        let rowIndex := rowNum - 2
        let row := (df.rows.get? rowIndex).getD []
        let currentValue := dCurrentValue df.header row column
        if currentValue = "" then
          genTasksRows h uuid df maxTasks issue taskType column severity rest tasks
        else
          let rowIdentifier := from_row h df.header row rowIndex
          let contextColumns := CONTEXT_COLUMNS_BY_TASK_TYPE taskType
          let contextData := buildContextData df row contextColumns
          let contextData :=
            if contextData = [] then [(column, pyTake 500 currentValue)]
            else contextData
          let task : RemediationTask :=
            { task_id := uuid tasks.length
              task_type := taskType
              row_identifier := rowIdentifier
              column := column
              current_value := pyTake 1000 currentValue
              issue_description := issue.message
              context := ⟨taskContextValidate contextData⟩
              severity := severity
              metadata_issue_code := issue.code
              metadata_row_number := rowNum
              metadata_row_index := rowIndex
              metadata_example := issue.examples.head? }
          genTasksRows h uuid df maxTasks issue taskType column severity rest
            (tasks ++ [task])

/-- RemediationTaskGenerator.generate_tasks over the report's issue list. -/
def generate_tasks (h : String → String) (uuid : Nat → String) (df : DataTable)
    (issues : List Issue) (maxTasks : Nat) : List RemediationTask :=
  go issues []
where
  go : List Issue → List RemediationTask → List RemediationTask
    | [], tasks => tasks
    | issue :: rest, tasks =>
      if tasks.length ≥ maxTasks then tasks
      else
        let severityStr := pyUpper issue.severity
        if severityStr ≠ "ERROR" ∧ severityStr ≠ "WARNING" then go rest tasks
        else
          let severity := if severityStr = "ERROR" then "ERROR" else "WARNING"
          match issueCodeToTaskType issue.code with
          | none => go rest tasks
          | some taskType =>
            match issue.column with
            | none => go rest tasks
            | some column =>
              if column = "" then go rest tasks
              else
                go rest
                  (genTasksRows h uuid df maxTasks issue taskType column severity
                    (issue.rows.take 5) tasks)

/-! ## remediation/llm_client.py -/

def GEMINI_MODELS : List String :=
  ["gemini-3-flash-preview", "gemini-2.5-flash", "gemini-2.5-flash-lite"]

/-- Model-fallback loop of GeminiLLMClient.generate_patch: `call m t`
abstracts one API call plus response parsing — `none` for an empty
response, a parse failure or a per-task exception (all of which `continue`
to the next task).  Returns (used_model, proposals). -/
def genPatchLoop (call : String → RemediationTask → Option PatchProposal)
    (tasks : List RemediationTask) :
    List String → Option String → Option String × List PatchProposal
  | [], used => (used, [])
  | m :: rest, _ =>
    let proposals := tasks.filterMap (call m)
    if proposals ≠ [] then (some m, proposals)
    else genPatchLoop call tasks rest (some m)

/-- GeminiLLMClient.generate_patch; `pid` abstracts the uuid4 patch id.
`.error` models the RuntimeError raised when no model was attempted. -/
def generate_patch (call : String → RemediationTask → Option PatchProposal)
    (pid : String) (models : List String) (tasks : List RemediationTask) :
    Except String RemediationPatch :=
  match genPatchLoop call tasks models none with
  | (none, _) => .error "All Gemini models failed. Check API key and network connection."
  | (some usedModel, proposals) =>
    .ok { patch_id := pid
          model_name := usedModel
          tasks := proposals
          metadata :=
            [("models_tried", .sl models),
             ("model_used", .s usedModel),
             ("tasks_processed", .n proposals.length),
             ("tasks_total", .n tasks.length)] }

/-! ## remediation/patch.py -/

/-- `self.df.at[row_index, task.column] = value` (KeyError on an unknown
column is modelled as `.error`). -/
def dfSetCell (df : DataTable) (i : Nat) (col : String) (v : String) :
    Except Unit DataTable :=
  match df.header.indexOf? col with
  | some j =>
    match df.rows.get? i with
    | some row => .ok { df with rows := df.rows.set i (row.set j (some v)) }
    | none => .ok df
  | none => .error ()

/-- `task_map = {task.task_id: task for task in tasks}` (later duplicates
overwrite earlier ones). -/
def taskMapLookup (tasks : List RemediationTask) (tid : String) :
    Option RemediationTask :=
  tasks.reverse.find? (fun t => t.task_id = tid)

structure ApplyState where
  df : DataTable
  applied : List AppliedChange
  rejected : List RejectedChange
  errors : List String

/-- One iteration of the proposal loop of
PatchApplicator.apply_patch_with_tasks.  Exceptions inside the loop
(modelled: KeyError from a missing DataFrame column) append to `errors`;
the Python message interpolates the exception text, modelled here by the
fixed message stem. -/
def applyStep (requireApproval : Bool) (threshold : ℚ) (autoApplyLowRisk : Bool)
    (now : String) (tasks : List RemediationTask) (st : ApplyState)
    (proposal : PatchProposal) : ApplyState :=
  match taskMapLookup tasks proposal.task_id with
  | none =>
    { st with rejected := st.rejected ++
        [⟨proposal.task_id, none, none, none, "Task not found", none, none⟩] }
  | some task =>
    match find_row_by_identifier st.df task.row_identifier with
    | .error _ =>
      { st with errors := st.errors ++
          ["Error processing proposal " ++ proposal.task_id] }
    | .ok none =>
      { st with rejected := st.rejected ++
          [⟨proposal.task_id, none, none, none, "Row not found by identifier",
            none, none⟩] }
    | .ok (some rowIndex) =>
      let row := (st.df.rows.get? rowIndex).getD []
      let currentValue := dCurrentValue st.df.header row task.column
      let v := validate_proposal proposal currentValue task.column
      if ¬ v.1 then
        { st with rejected := st.rejected ++
            [⟨proposal.task_id, some task.column, some currentValue,
              some proposal.proposed_value, v.2.getD "", none, none⟩] }
      else
        let canAutoApply :=
          if autoApplyLowRisk then can_auto_apply proposal threshold else false
        if requireApproval ∧ ¬ canAutoApply then
          { st with rejected := st.rejected ++
              [⟨proposal.task_id, some task.column, some currentValue,
                some proposal.proposed_value, "Requires manual approval",
                some proposal.confidence, some (riskVal proposal.risk_level)⟩] }
        else
          match dfSetCell st.df rowIndex task.column proposal.proposed_value with
          | .error _ =>
            { st with errors := st.errors ++
                ["Error processing proposal " ++ proposal.task_id] }
          | .ok df' =>
            { st with
                df := df'
                applied := st.applied ++
                  [⟨proposal.task_id, task.column, rowIndex, currentValue,
                    proposal.proposed_value, proposal.confidence,
                    proposal.reasoning, transformationVal proposal.transformation_type,
                    riskVal proposal.risk_level, now⟩] }

/-- PatchApplicator.apply_patch_with_tasks (`now` abstracts the
datetime.utcnow timestamps); returns the final working table and the
result. -/
def apply_patch_with_tasks (df : DataTable) (patch : RemediationPatch)
    (tasks : List RemediationTask) (requireApproval : Bool) (threshold : ℚ)
    (autoApplyLowRisk : Bool) (now : String) : DataTable × PatchApplyResult :=
  let final := patch.tasks.foldl
    (applyStep requireApproval threshold autoApplyLowRisk now tasks)
    ⟨df, [], [], []⟩
  (final.df,
   { patch_id := patch.patch_id
     applied_count := final.applied.length
     rejected_count := final.rejected.length
     skipped_count := 0
     applied_changes := final.applied
     rejected_changes := final.rejected
     errors := final.errors })

/-- PatchApplicator.apply_patch (the public variant without a task list):
every proposal is rejected with the fixed placeholder reason and the
working table is never touched. -/
def apply_patch (df : DataTable) (patch : RemediationPatch) :
    DataTable × PatchApplyResult :=
  let rejected := patch.tasks.map (fun proposal =>
    (⟨proposal.task_id, none, none, none,
      "Full implementation requires task context mapping", none, none⟩ :
      RejectedChange))
  (df,
   { patch_id := patch.patch_id
     applied_count := 0
     rejected_count := rejected.length
     skipped_count := 0
     applied_changes := []
     rejected_changes := rejected
     errors := [] })

end MicaReg

namespace MicaReg

/-! ## Definitions used by the verification statements -/

/-- A conversion oracle for tables that contain no scientific-notation LEI
values (the oracle is never consulted on them). -/
def sciNone : String → Option String := fun _ => none

/-- The sci-notation oracle fixing only the documented value
str(int(float("9.60E+19"))).upper() = "96000000000000000000" (exact in
binary64, see the header comment). -/
def sci960 : String → Option String :=
  fun s => if s = "9.60E+19" then some "96000000000000000000" else none

/-- Tiers 2 and 3 of the specification's LEI-repair cascade, entered only
when tier 1 did not already achieve a 20-character alphanumeric result:
tier 2 (values containing E+/E-) converts from scientific notation and
accepts only a 20-character result, recording LEI_EXCEL_NOTATION_FIXED,
else leaves the value and records a non-blocking warning; tier 3 strips
all non-alphanumeric characters and accepts exactly 20 characters;
otherwise the value is left untouched and a non-blocking warning is
recorded.  `origLei` is the stripped original (for the change records),
`cur` the value after tier 1 and `cs` the changes recorded so far. -/
def leiCascadeSpecTail (sci : String → Option String) (idx : Nat)
    (origLei cur : String) (cs : List Change) : LeiOutcome :=
  if strContains (pyUpper cur) "E+" || strContains (pyUpper cur) "E-" then
    -- tier 2: scientific-notation recovery
    match sci cur with
    | some recovered =>
      if recovered.data.length = 20 then
        ⟨recovered,
         cs ++ [⟨"LEI_EXCEL_NOTATION_FIXED", idx + 2, "ae_lei", origLei, recovered⟩],
         []⟩
      else
        ⟨cur, cs,
         [⟨idx + 2, cur,
           "Excel scientific notation - recovered length " ++
           toString recovered.data.length ++ ", expected 20"⟩]⟩
    | none =>
      ⟨cur, cs,
       [⟨idx + 2, cur, "Excel scientific notation - cannot convert"⟩]⟩
  else
    -- tier 3: strip all non-alphanumeric characters
    let cleaned := keepUpperAlnum (pyUpper cur)
    if cleaned.data.length = 20 ∧ cleaned ≠ cur then
      ⟨cleaned,
       cs ++ [⟨"LEI_CLEANED", idx + 2, "ae_lei", origLei, cleaned⟩], []⟩
    else
      -- otherwise: leave untouched, record a non-blocking warning
      ⟨cur, cs,
       [⟨idx + 2, cur,
         "Invalid format (length: " ++ toString cur.data.length ++
         ", expected: 20)"⟩]⟩

/-- The tiered LEI-repair cascade as the specification states it, written
from the spec's words: the cascade stops as soon as a 20-character
alphanumeric result is achieved; tier 1 strips a trailing dot; then tiers
2 and 3 (leiCascadeSpecTail) run on the tier-1 result. -/
def leiCascadeSpec (sci : String → Option String) (idx : Nat) (cell : String) :
    LeiOutcome :=
  let lei := pyStrip cell
  if lei = "" then ⟨cell, [], []⟩
  else
    -- tier 1: strip a trailing dot
    let tier1 : String × List Change :=
      if pyEndsWith lei "." then
        (rstripDots lei,
         [⟨"LEI_TRAILING_DOT_REMOVED", idx + 2, "ae_lei", lei, rstripDots lei⟩])
      else (lei, [])
    if leiPatternMatch tier1.1 then
      -- a 20-character alphanumeric result is achieved: stop
      ⟨tier1.1, tier1.2, []⟩
    else leiCascadeSpecTail sci idx lei tier1.1 tier1.2

/-- The counterexample table for the idempotence claim: a non-URL website
value next to a nonempty address. -/
def cexTable : Table := ⟨["ae_address", "ae_website"], [["X", "Y"]]⟩

/-- A companion counterexample table: a single unrepairable LEI, whose
non-blocking LEI_WARNING recurs on every pass. -/
def cexLeiTable : Table := ⟨["ae_lei"], [["ABC"]]⟩

/-- Row resolution as claim C9 states it: exact LEI match when unique,
composite (LEI, authority, country) when the LEI is duplicated, and — for
an identifier carrying no LEI but a synthetic id — resolution by the
synthetic id (recomputed per row via from_row). -/
def findRowSpecC9 (h : String → String) (df : DataTable)
    (ident : RowIdentifier) : Option Nat :=
  if optTruthy ident.lei then
    match df.header.indexOf? "ae_lei" with
    | none => none
    | some leiIdx =>
      let ms := df.rows.enum.filter
        (fun p => astypeStrStrip ((p.2.get? leiIdx).join) = ident.lei.getD "")
      if ms.length = 1 then ms.head?.map Prod.fst
      else if ms.length > 1 then
        match df.header.indexOf? "ae_competentAuthority",
              df.header.indexOf? "ac_serviceCode_cou" with
        | some caIdx, some scIdx =>
          let m2 := ms.filter (fun p =>
            astypeStrStrip ((p.2.get? caIdx).join) = ident.competent_authority.getD "" ∧
            astypeStrStrip ((p.2.get? scIdx).join) = ident.service_country.getD "")
          if m2.length = 1 then m2.head?.map Prod.fst else none
        | _, _ => none
      else none
  else if optTruthy ident.synthetic_id then
    ((df.rows.enum.filter
        (fun p => (from_row h df.header p.2 p.1).synthetic_id = ident.synthetic_id)).head?).map
      Prod.fst
  else none

/-- Counterexample data for C9: one row with an empty LEI, so its
identifier carries only a synthetic id. -/
def df9 : DataTable := ⟨["ae_lei", "ae_lei_name"], [[some "", some "N"]]⟩
def h9 : String → String := fun _ => "0123456789abcdef"
def ident9 : RowIdentifier := from_row h9 df9.header [some "", some "N"] 0

/-- The LEI-match candidate rows of find_row_by_identifier, for stating
its resolution behaviour. -/
def leiMatchRows (df : DataTable) (leiIdx : Nat) (l : String) :
    List (Nat × List (Option String)) :=
  df.rows.enum.filter (fun p => astypeStrStrip ((p.2.get? leiIdx).join) = l)

/-- Composite filter of find_row_by_identifier. -/
def compositeFilter (ca sc : String) (caIdx scIdx : Nat)
    (ms : List (Nat × List (Option String))) :
    List (Nat × List (Option String)) :=
  ms.filter (fun p =>
    astypeStrStrip ((p.2.get? caIdx).join) = ca ∧
    astypeStrStrip ((p.2.get? scIdx).join) = sc)

/-- Concrete task for the C7 witness. -/
def witnessTask : RemediationTask :=
  { task_id := "t-1", task_type := .encodingFix,
    row_identifier := ⟨some "L1", none, none, none⟩, column := "ae_address",
    current_value := "v", issue_description := "d", context := ⟨[]⟩,
    severity := "WARNING", metadata_issue_code := "ENCODING_SUSPECT",
    metadata_row_number := 2, metadata_row_index := 0, metadata_example := none }

/-- The oracle under which every model yields zero proposals. -/
def callNone : String → RemediationTask → Option PatchProposal := fun _ _ => none

/-- Concrete data for the C8 witness: a one-row table, a resolvable task on
a non-forbidden column and a valid but not auto-apply-eligible proposal. -/
def df8 : DataTable :=
  ⟨["ae_lei", "ae_address"], [[some "L1", some "old value"]]⟩
def task8 : RemediationTask :=
  { task_id := "t8", task_type := .encodingFix,
    row_identifier := ⟨some "L1", none, none, none⟩, column := "ae_address",
    current_value := "old value", issue_description := "d", context := ⟨[]⟩,
    severity := "WARNING", metadata_issue_code := "ENCODING_SUSPECT",
    metadata_row_number := 2, metadata_row_index := 0, metadata_example := none }
def proposal8 : PatchProposal :=
  { task_id := "t8", proposed_value := "new value", confidence := mkRat 95 100,
    reasoning := "r", transformation_type := .encodingFix, risk_level := .medium }
def state8 : ApplyState := ⟨df8, [], [], []⟩

/-- Concrete data for the C9 witness: a table with one unique LEI ("L2",
row 2) and one duplicated LEI ("L1", rows 0 and 1) disambiguated by the
(authority, country) composite. -/
def df9b : DataTable :=
  ⟨["ae_lei", "ae_competentAuthority", "ac_serviceCode_cou"],
   [[some "L1", some "CA", some "DE"],
    [some "L1", some "CB", some "FR"],
    [some "L2", some "X", some "Y"]]⟩

/-- Identifier carrying the unique LEI of df9b. -/
def identU : RowIdentifier := ⟨some "L2", none, none, none⟩

/-- Identifier carrying the duplicated LEI of df9b plus the composite
fields that single out its second row. -/
def identC : RowIdentifier := ⟨some "L1", some "CB", some "FR", none⟩

end MicaReg

namespace MicaReg

/-! ## Preservation lemmas for the cleaning engine -/

theorem mapRowsGo_length (f : Nat → List String → List String × List Change) :
    ∀ (i : Nat) (rows : List (List String)),
      (mapRowsGo f i rows).1.length = rows.length := by
  intro i rows
  induction rows generalizing i with
  | nil => rfl
  | cons r rs ih => simp [mapRowsGo, ih]

theorem mapRows_header (t : Table) (f : Nat → List String → List String × List Change) :
    (mapRows t f).1.header = t.header := rfl

theorem mapRows_length (t : Table) (f : Nat → List String → List String × List Change) :
    (mapRows t f).1.rows.length = t.rows.length := by
  simp [mapRows, mapRowsGo_length]

theorem foldColsAux_pres (step : String → Table → Table × List Change)
    (H : ∀ col t, (step col t).1.header = t.header ∧
                  (step col t).1.rows.length = t.rows.length) :
    ∀ (cols : List String) (acc : Table × List Change),
      (List.foldl (fun acc col =>
          let p := step col acc.1
          (p.1, acc.2 ++ p.2)) acc cols).1.header = acc.1.header ∧
      (List.foldl (fun acc col =>
          let p := step col acc.1
          (p.1, acc.2 ++ p.2)) acc cols).1.rows.length = acc.1.rows.length := by
  intro cols
  induction cols with
  | nil => intro acc; exact ⟨rfl, rfl⟩
  | cons c cs ih =>
    intro acc
    have h1 := ih ((step c acc.1).1, acc.2 ++ (step c acc.1).2)
    have h2 := H c acc.1
    simp only [List.foldl]
    exact ⟨h1.1.trans h2.1, h1.2.trans h2.2⟩

theorem foldCols_pres (cols : List String)
    (step : String → Table → Table × List Change) (t : Table)
    (H : ∀ col t, (step col t).1.header = t.header ∧
                  (step col t).1.rows.length = t.rows.length) :
    (foldCols cols step t).1.header = t.header ∧
    (foldCols cols step t).1.rows.length = t.rows.length :=
  foldColsAux_pres step H cols (t, [])

theorem leiRowsGo_length (sci : String → Option String) (header : List String) :
    ∀ (i : Nat) (rows : List (List String)),
      (leiRowsGo sci header i rows).1.length = rows.length := by
  intro i rows
  induction rows generalizing i with
  | nil => rfl
  | cons r rs ih => simp [leiRowsGo, ih]

/-- Header and row count preservation, bundled per fixer. -/
@[reducible] def tablePres (f : Table → Table × List Change) : Prop :=
  ∀ t, (f t).1.header = t.header ∧ (f t).1.rows.length = t.rows.length

theorem mapRows_pres (f : Table → Nat → List String → List String × List Change) :
    tablePres (fun t => mapRows t (f t)) := by
  intro t
  exact ⟨rfl, mapRows_length t (f t)⟩

theorem fix_whitespace_globally_pres (cfg : RegisterConfig) :
    tablePres (fix_whitespace_globally cfg) := by
  intro t
  unfold fix_whitespace_globally
  exact foldCols_pres _ _ _ (fun col t' => ⟨rfl, mapRows_length t' _⟩)

theorem detect_and_fix_encoding_data_loss_pres (cfg : RegisterConfig) :
    tablePres (detect_and_fix_encoding_data_loss cfg) := by
  intro t
  unfold detect_and_fix_encoding_data_loss
  exact foldCols_pres _ _ _ (fun col t' => ⟨rfl, mapRows_length t' _⟩)

theorem fix_encoding_issues_table_pres (cfg : RegisterConfig) :
    tablePres (fix_encoding_issues_table cfg) := by
  intro t
  unfold fix_encoding_issues_table
  exact foldCols_pres _ _ _ (fun col t' => ⟨rfl, mapRows_length t' _⟩)

theorem fix_dates_pres (cfg : RegisterConfig) : tablePres (fix_dates cfg) := by
  intro t
  unfold fix_dates
  exact foldCols_pres _ _ _ (fun col t' => ⟨rfl, mapRows_length t' _⟩)

theorem fix_multiline_fields_pres : tablePres fix_multiline_fields := by
  intro t
  unfold fix_multiline_fields
  cases h : t.header.find?
      (fun col => strContains (pyLower col) "website" || strContains (pyLower col) "url") with
  | none =>
    simp only [h]
    exact foldCols_pres _ _ _ (fun col t' => ⟨rfl, mapRows_length t' _⟩)
  | some wc =>
    simp only [h]
    refine ⟨?_, ?_⟩
    · exact (foldCols_pres _ _ _ (fun col t' => ⟨rfl, mapRows_length t' _⟩)).1.trans
        (mapRows_header t _)
    · exact (foldCols_pres _ _ _ (fun col t' => ⟨rfl, mapRows_length t' _⟩)).2.trans
        (mapRows_length t _)

theorem normalize_country_codes_pres (cfg : RegisterConfig) :
    tablePres (normalize_country_codes cfg) := by
  intro t
  unfold normalize_country_codes
  split
  · exact ⟨rfl, rfl⟩
  · split
    · exact ⟨rfl, rfl⟩
    · exact ⟨rfl, mapRows_length t _⟩

theorem fix_lei_format_pres (sci : String → Option String) :
    tablePres (fix_lei_format sci) := by
  intro t
  unfold fix_lei_format
  split
  · exact ⟨rfl, rfl⟩
  · exact ⟨rfl, leiRowsGo_length sci t.header 0 t.rows⟩

theorem fix_address_website_parsing_table_pres :
    tablePres fix_address_website_parsing_table := by
  intro t
  unfold fix_address_website_parsing_table
  split
  · exact ⟨rfl, rfl⟩
  · exact ⟨rfl, mapRows_length t _⟩

theorem normalize_service_codes_pres (cfg : RegisterConfig) :
    tablePres (normalize_service_codes cfg) := by
  intro t
  unfold normalize_service_codes
  split
  · exact ⟨rfl, rfl⟩
  · split
    · exact ⟨rfl, rfl⟩
    · exact ⟨rfl, mapRows_length t _⟩

theorem normalize_commercial_names_pres : tablePres normalize_commercial_names := by
  intro t
  unfold normalize_commercial_names
  split
  · exact ⟨rfl, rfl⟩
  · exact ⟨rfl, mapRows_length t _⟩

theorem fix_all_issues_pres (cfg : RegisterConfig)
    (sci : String → Option String) :
    tablePres (fun t => fix_all_issues cfg sci t) := by
  intro t
  unfold fix_all_issues
  refine ⟨?_, ?_⟩
  · exact ((normalize_commercial_names_pres _).1.trans
      ((normalize_service_codes_pres cfg _).1.trans
       ((fix_address_website_parsing_table_pres _).1.trans
        ((fix_lei_format_pres sci _).1.trans
         ((normalize_country_codes_pres cfg _).1.trans
          ((fix_multiline_fields_pres _).1.trans
           ((fix_dates_pres cfg _).1.trans
            ((fix_encoding_issues_table_pres cfg _).1.trans
             ((detect_and_fix_encoding_data_loss_pres cfg _).1.trans
              ((fix_whitespace_globally_pres cfg _).1))))))))))
  · exact ((normalize_commercial_names_pres _).2.trans
      ((normalize_service_codes_pres cfg _).2.trans
       ((fix_address_website_parsing_table_pres _).2.trans
        ((fix_lei_format_pres sci _).2.trans
         ((normalize_country_codes_pres cfg _).2.trans
          ((fix_multiline_fields_pres _).2.trans
           ((fix_dates_pres cfg _).2.trans
            ((fix_encoding_issues_table_pres cfg _).2.trans
             ((detect_and_fix_encoding_data_loss_pres cfg _).2.trans
              ((fix_whitespace_globally_pres cfg _).2))))))))))

end MicaReg

namespace MicaReg

/-! ## Claim theorems -/

/-- C1: For every patch proposal and every current value,
RemediationPolicy.validate_proposal(p, v, 'ae_lei') rejects with the
forbidden-column reason, for all confidence values and risk levels; the
LEI trailing-dot-trimming carve-out inside validate_proposal is
unreachable (its message is never returned for this column). -/
theorem validate_proposal_ae_lei_always_rejected
    (proposal : PatchProposal) (currentValue : String) :
    validate_proposal proposal currentValue "ae_lei" =
      (false, some "Forbidden column: ae_lei. LLM cannot modify this column.") ∧
    (validate_proposal proposal currentValue "ae_lei").2 ≠
      some "LEI value cannot be changed (only trivial trimming allowed, prefer deterministic cleaning)" := by
  have h : validate_proposal proposal currentValue "ae_lei" =
      (false, some "Forbidden column: ae_lei. LLM cannot modify this column.") := by
    unfold validate_proposal is_allowed_transformation is_allowed_column
    simp [FORBIDDEN_TRANSFORMATIONS, FORBIDDEN_COLUMNS]
  exact ⟨h, by rw [h]; decide⟩

/-- C2 (counterexample): on the table {address "X", website "Y"} a second
run of fix_all_issues on the output of the first run produces a further
Change record (and even rewrites the address cell again), refuting
`clean(clean(rows)) == clean(rows)` with zero additional Changes. -/
theorem fix_all_issues_not_idempotent :
    (fix_all_issues caspConfig sciNone
        (fix_all_issues caspConfig sciNone cexTable).1).2 ≠ [] ∧
    (fix_all_issues caspConfig sciNone
        (fix_all_issues caspConfig sciNone cexTable).1).1 ≠
      (fix_all_issues caspConfig sciNone cexTable).1 := by
  decide

/-- C2 (amended): cleaning is not idempotent.  The address/website merge
never clears the website column, so it re-fires on every pass (first pass:
address "X" ↦ "X, Y"; second pass: "X, Y" ↦ "X, Y, Y", one
ADDRESS_PARSING_FIXED Change each), and non-blocking warning Changes recur
for values left unrepaired (LEI_WARNING for "ABC" on both passes, table
unchanged). -/
theorem fix_all_issues_second_pass_behaviour :
    (fix_all_issues caspConfig sciNone cexTable).1 =
      ⟨["ae_address", "ae_website"], [["X, Y", "Y"]]⟩ ∧
    (fix_all_issues caspConfig sciNone cexTable).2 =
      [⟨"ADDRESS_PARSING_FIXED", 2, "ae_address", "X", "X, Y"⟩] ∧
    (fix_all_issues caspConfig sciNone
        (fix_all_issues caspConfig sciNone cexTable).1).1 =
      ⟨["ae_address", "ae_website"], [["X, Y, Y", "Y"]]⟩ ∧
    (fix_all_issues caspConfig sciNone
        (fix_all_issues caspConfig sciNone cexTable).1).2 =
      [⟨"ADDRESS_PARSING_FIXED", 2, "ae_address", "X, Y", "X, Y, Y"⟩] ∧
    (fix_all_issues caspConfig sciNone cexLeiTable).1 = cexLeiTable ∧
    (fix_all_issues caspConfig sciNone cexLeiTable).2 =
      [⟨"LEI_WARNING", 2, "ae_lei", "ABC",
        "[WARNING: Invalid format (length: 3, expected: 20) - left as-is, import may skip this row]"⟩] ∧
    (fix_all_issues caspConfig sciNone
        (fix_all_issues caspConfig sciNone cexLeiTable).1).2 =
      [⟨"LEI_WARNING", 2, "ae_lei", "ABC",
        "[WARNING: Invalid format (length: 3, expected: 20) - left as-is, import may skip this row]"⟩] := by
  refine ⟨?_, ?_, ?_, ?_, ?_, ?_, ?_⟩ <;> decide

/-- C3: fix_all_issues preserves the number of rows (rows_after equals
rows_before) and the header; no fixer merges or drops rows — each of the
ten fixers individually preserves the row count. -/
theorem fix_all_issues_preserves_row_count (cfg : RegisterConfig)
    (sci : String → Option String) (t : Table) :
    (fix_all_issues cfg sci t).1.rows.length = t.rows.length ∧
    (fix_all_issues cfg sci t).1.header = t.header ∧
    (fix_whitespace_globally cfg t).1.rows.length = t.rows.length ∧
    (detect_and_fix_encoding_data_loss cfg t).1.rows.length = t.rows.length ∧
    (fix_encoding_issues_table cfg t).1.rows.length = t.rows.length ∧
    (fix_dates cfg t).1.rows.length = t.rows.length ∧
    (fix_multiline_fields t).1.rows.length = t.rows.length ∧
    (normalize_country_codes cfg t).1.rows.length = t.rows.length ∧
    (fix_lei_format sci t).1.rows.length = t.rows.length ∧
    (fix_address_website_parsing_table t).1.rows.length = t.rows.length ∧
    (normalize_service_codes cfg t).1.rows.length = t.rows.length ∧
    (normalize_commercial_names t).1.rows.length = t.rows.length :=
  ⟨(fix_all_issues_pres cfg sci t).2, (fix_all_issues_pres cfg sci t).1,
   (fix_whitespace_globally_pres cfg t).2,
   (detect_and_fix_encoding_data_loss_pres cfg t).2,
   (fix_encoding_issues_table_pres cfg t).2,
   (fix_dates_pres cfg t).2,
   (fix_multiline_fields_pres t).2,
   (normalize_country_codes_pres cfg t).2,
   (fix_lei_format_pres sci t).2,
   (fix_address_website_parsing_table_pres t).2,
   (normalize_service_codes_pres cfg t).2,
   (normalize_commercial_names_pres t).2⟩

/-- C5: the code bug at the failing input "01/12/ .2025" (space before the
dot): classify_date reports neither ok nor repairable — so validation
emits DATE_UNPARSABLE (ERROR) — although the no-space variant is
classified repairable with the normalization hint, and cleaning's
parse_date does repair the spaced variant to 01/12/2025 (which fix_dates
then writes back via strftime). -/
theorem classify_date_space_before_dot_unparsable :
    classify_date "01/12/ .2025" = ⟨false, false, none⟩ ∧
    classify_date "01/12/.2025" = ⟨false, true, some "01/12/2025"⟩ ∧
    parse_date DateFmt.dmy "01/12/ .2025" = some ⟨2025, 12, 1⟩ ∧
    strftime DateFmt.dmy ⟨2025, 12, 1⟩ = "01/12/2025" := by
  refine ⟨?_, ?_, ?_, ?_⟩ <;> decide

/-- C10: PatchApplicator.apply_patch (the public variant without a task
list) never modifies the working table; it returns applied_count = 0 and
lists every proposal of the patch in rejected_changes, each with the
recorded placeholder reason. -/
theorem apply_patch_rejects_all_proposals (df : DataTable)
    (patch : RemediationPatch) :
    (apply_patch df patch).1 = df ∧
    (apply_patch df patch).2.applied_count = 0 ∧
    (apply_patch df patch).2.applied_changes = [] ∧
    (apply_patch df patch).2.rejected_count = patch.tasks.length ∧
    (apply_patch df patch).2.rejected_changes =
      patch.tasks.map (fun proposal =>
        ⟨proposal.task_id, none, none, none,
         "Full implementation requires task context mapping", none, none⟩) ∧
    ∀ r ∈ (apply_patch df patch).2.rejected_changes,
      r.reason = "Full implementation requires task context mapping" := by
  refine ⟨rfl, rfl, rfl, by simp [apply_patch], rfl, ?_⟩
  intro r hr
  simp only [apply_patch, List.mem_map] at hr
  obtain ⟨p, _, hp⟩ := hr
  rw [← hp]

end MicaReg

namespace MicaReg

/-- If the fallback loop yields no used model, the model list was empty
(and the incoming used-model marker was already none): `used_model` is set
before anything else in each loop iteration. -/
theorem genPatchLoop_none (call : String → RemediationTask → Option PatchProposal)
    (tasks : List RemediationTask) :
    ∀ (models : List String) (used : Option String),
      (genPatchLoop call tasks models used).1 = none →
      models = [] ∧ used = none := by
  intro models
  induction models with
  | nil => intro used h; exact ⟨rfl, h⟩
  | cons m rest ih =>
    intro used h
    by_cases hp : tasks.filterMap (call m) ≠ []
    · simp only [genPatchLoop, if_pos hp] at h
      cases h
    · simp only [genPatchLoop, if_neg hp] at h
      exact absurd (ih (some m) h).2 (by simp)

/-- C7: if every candidate model yields zero valid proposals for a
non-empty task list, generate_patch still returns a RemediationPatch (no
exception) whose model_name is the last model attempted
("gemini-2.5-flash-lite"), whose proposal list is empty and whose metadata
carries models_tried, model_used, tasks_processed and tasks_total; and the
hard RuntimeError is raised only when no model could be attempted at all
(empty model list). -/
theorem generate_patch_total_failure_returns_patch :
    (∀ (call : String → RemediationTask → Option PatchProposal) (pid : String)
       (tasks : List RemediationTask), tasks ≠ [] →
       (∀ m ∈ GEMINI_MODELS, ∀ t ∈ tasks, call m t = none) →
       generate_patch call pid GEMINI_MODELS tasks =
         .ok { patch_id := pid
               model_name := "gemini-2.5-flash-lite"
               tasks := []
               metadata :=
                 [("models_tried", .sl GEMINI_MODELS),
                  ("model_used", .s "gemini-2.5-flash-lite"),
                  ("tasks_processed", .n 0),
                  ("tasks_total", .n tasks.length)] }) ∧
    (∀ (call : String → RemediationTask → Option PatchProposal) (pid : String)
       (models : List String) (tasks : List RemediationTask) (e : String),
       generate_patch call pid models tasks = .error e → models = []) := by
  constructor
  · intro call pid tasks _ hall
    have hf : ∀ m ∈ GEMINI_MODELS, tasks.filterMap (call m) = [] := by
      intro m hm
      exact List.filterMap_eq_nil_iff.mpr (hall m hm)
    have h1 := hf "gemini-3-flash-preview" (by simp [GEMINI_MODELS])
    have h2 := hf "gemini-2.5-flash" (by simp [GEMINI_MODELS])
    have h3 := hf "gemini-2.5-flash-lite" (by simp [GEMINI_MODELS])
    unfold generate_patch GEMINI_MODELS
    simp only [genPatchLoop, h1, h2, h3]
    simp [GEMINI_MODELS]
  · intro call pid models tasks e h
    unfold generate_patch at h
    rcases hl : genPatchLoop call tasks models none with ⟨used, ps⟩
    rw [hl] at h
    cases used with
    | some m => simp at h
    | none => exact (genPatchLoop_none call tasks models none (by rw [hl])).1

/-- C7 witness: a concrete non-empty task list and the
everything-fails call oracle. -/
theorem generate_patch_total_failure_witness :
    generate_patch callNone "p0" GEMINI_MODELS [witnessTask] =
      .ok { patch_id := "p0"
            model_name := "gemini-2.5-flash-lite"
            tasks := []
            metadata :=
              [("models_tried", .sl GEMINI_MODELS),
               ("model_used", .s "gemini-2.5-flash-lite"),
               ("tasks_processed", .n 0),
               ("tasks_total", .n 1)] } :=
  generate_patch_total_failure_returns_patch.1 callNone "p0" [witnessTask]
    (by decide) (fun m _ t _ => rfl)

/-- Nonempty-prefix strings stay nonempty under append. -/
theorem str_append_ne_empty (s t : String) (h : 0 < s.length) : s ++ t ≠ "" := by
  intro he
  have hl := congrArg String.length he
  rw [String.length_append] at hl
  have : ("" : String).length = 0 := rfl
  omega

/-- Positivity of length is preserved by appending on the right. -/
theorem str_append_len_pos (s t : String) (h : 0 < s.length) :
    0 < (s ++ t).length := by
  rw [String.length_append]; omega

/-- A failing validate_proposal always carries a nonempty reason. -/
theorem validate_proposal_reason_nonempty (proposal : PatchProposal)
    (currentValue column : String)
    (h : (validate_proposal proposal currentValue column).1 = false) :
    ((validate_proposal proposal currentValue column).2.getD "") ≠ "" := by
  by_cases h1 : ¬ is_allowed_transformation proposal.transformation_type
  · simp only [validate_proposal, if_pos h1, Option.getD]
    exact str_append_ne_empty _ _ (by decide)
  · by_cases h2 : ¬ is_allowed_column column
    · simp only [validate_proposal, if_neg h1, if_pos h2, Option.getD]
      exact str_append_ne_empty _ _
        (str_append_len_pos _ _ (by decide))
    · by_cases h3 : column = "ae_lei" ∧
          rstripDots (pyStrip currentValue) ≠ rstripDots (pyStrip proposal.proposed_value)
      · simp only [validate_proposal, if_neg h1, if_neg h2, if_pos h3, Option.getD]
        decide
      · by_cases h4 : proposal.confidence < mkRat 1 2
        · simp only [validate_proposal, if_neg h1, if_neg h2, if_neg h3, if_pos h4,
            Option.getD]
          exact str_append_ne_empty _ _
            (str_append_len_pos _ _ (by decide))
        · simp only [validate_proposal, if_neg h1, if_neg h2, if_neg h3, if_neg h4] at h
          cases h

end MicaReg

namespace MicaReg

/-- Each proposal processed by applyStep lands in exactly one of
applied / rejected / errors, and any newly appended rejection carries a
nonempty reason. -/
theorem applyStep_accounting (requireApproval : Bool) (threshold : ℚ)
    (autoApplyLowRisk : Bool) (now : String) (tasks : List RemediationTask)
    (st : ApplyState) (proposal : PatchProposal) :
    ((applyStep requireApproval threshold autoApplyLowRisk now tasks st proposal).applied.length +
     (applyStep requireApproval threshold autoApplyLowRisk now tasks st proposal).rejected.length +
     (applyStep requireApproval threshold autoApplyLowRisk now tasks st proposal).errors.length =
     st.applied.length + st.rejected.length + st.errors.length + 1) ∧
    (∀ r ∈ (applyStep requireApproval threshold autoApplyLowRisk now tasks st proposal).rejected,
       r ∈ st.rejected ∨ r.reason ≠ "") := by
  have memCase : ∀ (rec : RejectedChange), rec.reason ≠ "" →
      ∀ r ∈ st.rejected ++ [rec], r ∈ st.rejected ∨ r.reason ≠ "" := by
    intro rec hrec r hr
    rcases List.mem_append.mp hr with h | h
    · exact Or.inl h
    · simp only [List.mem_singleton] at h
      subst h
      exact Or.inr hrec
  unfold applyStep
  cases hm : taskMapLookup tasks proposal.task_id with
  | none =>
    dsimp only
    refine ⟨?_, memCase _ (show ("Task not found" : String) ≠ "" by decide)⟩
    simp only [List.length_append, List.length_cons, List.length_nil]
    omega
  | some task =>
    dsimp only
    cases hf : find_row_by_identifier st.df task.row_identifier with
    | error u =>
      dsimp only
      refine ⟨?_, fun r hr => Or.inl hr⟩
      simp only [List.length_append, List.length_cons, List.length_nil]
      omega
    | ok o =>
      cases o with
      | none =>
        dsimp only
        refine ⟨?_, memCase _ (show ("Row not found by identifier" : String) ≠ "" by decide)⟩
        simp only [List.length_append, List.length_cons, List.length_nil]
        omega
      | some rowIndex =>
        dsimp only
        by_cases hv : (validate_proposal proposal
            (dCurrentValue st.df.header (st.df.rows[rowIndex]?.getD [])
              task.column) task.column).1 = true
        · rw [if_neg (by simp [hv])]
          by_cases ha : (requireApproval = true ∧
              ¬ (if autoApplyLowRisk = true then can_auto_apply proposal threshold
                 else false) = true)
          · rw [if_pos ha]
            refine ⟨?_, memCase _ (show ("Requires manual approval" : String) ≠ "" by decide)⟩
            simp only [List.length_append, List.length_cons, List.length_nil]
            omega
          · rw [if_neg ha]
            cases hset : dfSetCell st.df rowIndex task.column proposal.proposed_value with
            | error u =>
              dsimp only
              refine ⟨?_, fun r hr => Or.inl hr⟩
              simp only [List.length_append, List.length_cons, List.length_nil]
              omega
            | ok df2 =>
              dsimp only
              refine ⟨?_, fun r hr => Or.inl hr⟩
              simp only [List.length_append, List.length_cons, List.length_nil]
              omega
        · rw [if_pos (by simp [hv])]
          refine ⟨?_, memCase _ ?_⟩
          · simp only [List.length_append, List.length_cons, List.length_nil]
            omega
          · exact validate_proposal_reason_nonempty proposal _ _
              (by simpa using hv)

/-- Fold-level accounting over a proposal list. -/
theorem applyFold_accounting (requireApproval : Bool) (threshold : ℚ)
    (autoApplyLowRisk : Bool) (now : String) (tasks : List RemediationTask) :
    ∀ (props : List PatchProposal) (st : ApplyState),
      ((props.foldl (applyStep requireApproval threshold autoApplyLowRisk now tasks) st).applied.length +
       (props.foldl (applyStep requireApproval threshold autoApplyLowRisk now tasks) st).rejected.length +
       (props.foldl (applyStep requireApproval threshold autoApplyLowRisk now tasks) st).errors.length =
       st.applied.length + st.rejected.length + st.errors.length + props.length) ∧
      (∀ r ∈ (props.foldl (applyStep requireApproval threshold autoApplyLowRisk now tasks) st).rejected,
         r ∈ st.rejected ∨ r.reason ≠ "") := by
  intro props
  induction props with
  | nil => intro st; exact ⟨by simp, fun r hr => Or.inl hr⟩
  | cons p ps ih =>
    intro st
    have hstep := applyStep_accounting requireApproval threshold autoApplyLowRisk
      now tasks st p
    have hih := ih (applyStep requireApproval threshold autoApplyLowRisk now tasks st p)
    constructor
    · simp only [List.foldl]
      rw [hih.1, hstep.1]
      simp [Nat.add_assoc, Nat.add_comm, Nat.add_left_comm]
    · intro r hr
      simp only [List.foldl] at hr
      rcases hih.2 r hr with h | h
      · exact hstep.2 r h
      · exact Or.inr h

/-- C8: in apply_patch_with_tasks, a proposal whose task and row resolve
and that passes policy validation is — when require_approval is true and
the proposal is not auto-apply-eligible — rejected with reason "Requires
manual approval", recorded in rejected_changes with its details, with the
working table left unchanged by that step; and globally every proposal
lands in exactly one of applied / rejected / errors with every rejection
carrying a nonempty recorded reason. -/
theorem apply_patch_requires_manual_approval :
    (∀ (threshold : ℚ) (autoApplyLowRisk : Bool) (now : String)
       (tasks : List RemediationTask) (st : ApplyState)
       (proposal : PatchProposal) (task : RemediationTask) (rowIndex : Nat),
       taskMapLookup tasks proposal.task_id = some task →
       find_row_by_identifier st.df task.row_identifier = .ok (some rowIndex) →
       (validate_proposal proposal
          (dCurrentValue st.df.header ((st.df.rows.get? rowIndex).getD [])
            task.column) task.column).1 = true →
       can_auto_apply proposal threshold = false →
       applyStep true threshold autoApplyLowRisk now tasks st proposal =
         { st with rejected := st.rejected ++
             [⟨proposal.task_id, some task.column,
               some (dCurrentValue st.df.header ((st.df.rows.get? rowIndex).getD [])
                 task.column),
               some proposal.proposed_value, "Requires manual approval",
               some proposal.confidence, some (riskVal proposal.risk_level)⟩] } ∧
       (applyStep true threshold autoApplyLowRisk now tasks st proposal).df = st.df) ∧
    (∀ (df : DataTable) (patch : RemediationPatch) (tasks : List RemediationTask)
       (requireApproval : Bool) (threshold : ℚ) (autoApplyLowRisk : Bool)
       (now : String),
       ((apply_patch_with_tasks df patch tasks requireApproval threshold
           autoApplyLowRisk now).2.applied_count +
        (apply_patch_with_tasks df patch tasks requireApproval threshold
           autoApplyLowRisk now).2.rejected_count +
        (apply_patch_with_tasks df patch tasks requireApproval threshold
           autoApplyLowRisk now).2.errors.length = patch.tasks.length) ∧
       (∀ r ∈ (apply_patch_with_tasks df patch tasks requireApproval threshold
           autoApplyLowRisk now).2.rejected_changes, r.reason ≠ "")) := by
  constructor
  · intro threshold autoApplyLowRisk now tasks st proposal task rowIndex
      hm hf hv hauto
    simp only [List.get?_eq_getElem?] at hv
    have heq : applyStep true threshold autoApplyLowRisk now tasks st proposal =
        { st with rejected := st.rejected ++
            [⟨proposal.task_id, some task.column,
              some (dCurrentValue st.df.header ((st.df.rows.get? rowIndex).getD [])
                task.column),
              some proposal.proposed_value, "Requires manual approval",
              some proposal.confidence, some (riskVal proposal.risk_level)⟩] } := by
      cases autoApplyLowRisk <;>
        simp [applyStep, hm, hf, hv, hauto]
    exact ⟨heq, by rw [heq]⟩
  · intro df patch tasks requireApproval threshold autoApplyLowRisk now
    have hacc := applyFold_accounting requireApproval threshold autoApplyLowRisk
      now tasks patch.tasks ⟨df, [], [], []⟩
    constructor
    · have := hacc.1
      simpa [apply_patch_with_tasks] using this
    · intro r hr
      have hr' : r ∈ (patch.tasks.foldl
          (applyStep requireApproval threshold autoApplyLowRisk now tasks)
          ⟨df, [], [], []⟩).rejected := by
        simpa [apply_patch_with_tasks] using hr
      rcases hacc.2 r hr' with h | h
      · cases h
      · exact h

/-- C8 witness: concrete resolvable task, valid proposal, require_approval
set and auto-apply not eligible (MEDIUM risk). -/
theorem apply_patch_requires_manual_approval_witness :
    applyStep true (mkRat 9 10) false "NOW" [task8] state8 proposal8 =
      { state8 with rejected := state8.rejected ++
          [⟨proposal8.task_id, some task8.column,
            some (dCurrentValue state8.df.header
              ((state8.df.rows.get? 0).getD []) task8.column),
            some proposal8.proposed_value, "Requires manual approval",
            some proposal8.confidence, some (riskVal proposal8.risk_level)⟩] } :=
  (apply_patch_requires_manual_approval.1 (mkRat 9 10) false "NOW" [task8]
    state8 proposal8 task8 0 rfl rfl (by decide) (by decide)).1

end MicaReg

namespace MicaReg

/-! ## C4: the tiered LEI-repair cascade -/

theorem toUpper_of_upperAlnum {c : Char} (h : isUpperAlnum c = true) :
    c.toUpper = c := by
  unfold isUpperAlnum isAsciiUpperAlpha isAsciiDigit at h
  simp only [Bool.or_eq_true, Bool.and_eq_true, decide_eq_true_eq] at h
  unfold Char.toUpper
  have hup : ¬ (c.toNat ≥ 97 ∧ c.toNat ≤ 122) := by
    have : c.toNat ≤ 90 := by
      rcases h with ⟨_, h2⟩ | ⟨_, h2⟩
      · exact Nat.le_trans (Nat.le_of_lt_succ (Nat.lt_succ_of_le h2)) (by decide)
      · exact Nat.le_trans (Nat.le_of_lt_succ (Nat.lt_succ_of_le h2)) (by decide)
    omega
  simp [hup]

theorem mapToUpper_of_all {l : List Char} (h : ∀ c ∈ l, isUpperAlnum c = true) :
    l.map Char.toUpper = l := by
  induction l with
  | nil => rfl
  | cons a t ih =>
    rw [List.map_cons, toUpper_of_upperAlnum (h a (List.mem_cons_self a t)),
      ih (fun c hc => h c (List.mem_cons_of_mem a hc))]

theorem pyUpper_of_upperAlnum {s : String} (h : s.data.all isUpperAlnum = true) :
    pyUpper s = s := by
  unfold pyUpper
  rw [List.all_eq_true] at h
  rw [mapToUpper_of_all h]

theorem listIsInfix_subset {pat l : List Char} (h : listIsInfix pat l = true) :
    ∀ c ∈ pat, c ∈ l := by
  induction l with
  | nil =>
    unfold listIsInfix at h
    intro c hc
    rw [List.isEmpty_iff] at h
    subst h
    cases hc
  | cons a rest ih =>
    unfold listIsInfix at h
    rw [Bool.or_eq_true] at h
    rcases h with h1 | h2
    · intro c hc
      exact (List.isPrefixOf_iff_prefix.mp h1).subset hc
    · intro c hc
      exact List.mem_cons_of_mem a (ih h2 c hc)

theorem keepUpperAlnum_of_all {s : String} (h : s.data.all isUpperAlnum = true) :
    keepUpperAlnum s = s := by
  unfold keepUpperAlnum
  rw [List.all_eq_true] at h
  have : s.data.filter isUpperAlnum = s.data := List.filter_eq_self.mpr h
  rw [this]

theorem leiPatternMatch_keepUpperAlnum {s : String}
    (h : (keepUpperAlnum s).data.length = 20) :
    leiPatternMatch (keepUpperAlnum s) = true := by
  unfold leiPatternMatch
  rw [Bool.and_eq_true, decide_eq_true_eq]
  refine ⟨h, ?_⟩
  rw [List.all_eq_true]
  intro c hc
  unfold keepUpperAlnum at hc
  exact (List.mem_filter.mp hc).2

theorem strContains_EPlus_false {s : String} (h : s.data.all isUpperAlnum = true) :
    strContains s "E+" = false := by
  by_contra hc
  rw [Bool.not_eq_false] at hc
  have hmem : '+' ∈ s.data :=
    listIsInfix_subset hc '+' (by decide)
  rw [List.all_eq_true] at h
  have := h '+' hmem
  exact absurd this (by decide)

theorem strContains_EMinus_false {s : String} (h : s.data.all isUpperAlnum = true) :
    strContains s "E-" = false := by
  by_contra hc
  rw [Bool.not_eq_false] at hc
  have hmem : '-' ∈ s.data :=
    listIsInfix_subset hc '-' (by decide)
  rw [List.all_eq_true] at h
  have := h '-' hmem
  exact absurd this (by decide)

/-- fixLeiAfterDot is the identity outcome on pattern-matching values. -/
theorem fixLeiAfterDot_of_pattern (sci : String → Option String) (idx : Nat)
    (orig s : String) (cs : List Change) (h : leiPatternMatch s = true) :
    fixLeiValue.fixLeiAfterDot sci idx orig s cs = ⟨s, cs, []⟩ := by
  have hall : s.data.all isUpperAlnum = true := by
    unfold leiPatternMatch at h
    rw [Bool.and_eq_true] at h
    exact h.2
  have hup : pyUpper s = s := pyUpper_of_upperAlnum hall
  unfold fixLeiValue.fixLeiAfterDot
  rw [hup, strContains_EPlus_false hall, strContains_EMinus_false hall]
  simp only [Bool.or_self, Bool.false_eq_true, if_false]
  rw [keepUpperAlnum_of_all hall]
  simp [h]

/-- On non-pattern-matching values, fixLeiAfterDot coincides with tiers 2-3
of the specification cascade. -/
theorem fixLeiAfterDot_eq_specTail (sci : String → Option String) (idx : Nat)
    (orig s : String) (cs : List Change) (h : leiPatternMatch s = false) :
    fixLeiValue.fixLeiAfterDot sci idx orig s cs =
      leiCascadeSpecTail sci idx orig s cs := by
  unfold fixLeiValue.fixLeiAfterDot leiCascadeSpecTail
  by_cases hE : (strContains (pyUpper s) "E+" || strContains (pyUpper s) "E-") = true
  · rw [if_pos hE, if_pos hE]
  · rw [if_neg hE, if_neg hE]
    by_cases hC : (keepUpperAlnum (pyUpper s)).data.length = 20 ∧
        keepUpperAlnum (pyUpper s) ≠ s
    · have h20 : (keepUpperAlnum (pyUpper s)).length = 20 := hC.1
      have hne : keepUpperAlnum (pyUpper s) ≠ s := hC.2
      simp [h20, hne, leiPatternMatch_keepUpperAlnum hC.1]
    · have hC2 : ¬ ((keepUpperAlnum (pyUpper s)).length = 20 ∧
          keepUpperAlnum (pyUpper s) ≠ s) := fun hx => hC ⟨hx.1, hx.2⟩
      simp [hC2, h]

/-- fixLeiValue coincides with the specification's tiered cascade on every
oracle, row index and cell value. -/
theorem fixLeiValue_eq_spec (sci : String → Option String) (idx : Nat)
    (cell : String) :
    fixLeiValue sci idx cell = leiCascadeSpec sci idx cell := by
  unfold fixLeiValue leiCascadeSpec
  by_cases h0 : pyStrip cell = ""
  · rw [if_pos h0, if_pos h0]
  · rw [if_neg h0, if_neg h0]
    dsimp only
    by_cases hdot : pyEndsWith (pyStrip cell) "." = true
    · rw [if_pos hdot, if_pos hdot]
      dsimp only
      by_cases hp : leiPatternMatch (rstripDots (pyStrip cell)) = true
      · rw [if_pos hp, if_pos hp]
      · rw [if_neg hp, if_neg hp]
        exact fixLeiAfterDot_eq_specTail sci idx _ _ _
          (Bool.eq_false_iff.mpr hp)
    · rw [if_neg hdot, if_neg hdot]
      dsimp only
      by_cases hp : leiPatternMatch (pyStrip cell) = true
      · rw [if_pos hp]
        exact fixLeiAfterDot_of_pattern sci idx _ _ _ hp
      · rw [if_neg hp]
        exact fixLeiAfterDot_eq_specTail sci idx _ _ _
          (Bool.eq_false_iff.mpr hp)

/-- C4: for every ae_lei cell value (and every scientific-notation
conversion oracle and row index), fix_lei_format's per-value repair equals
the specification's tiered cascade — strip a trailing dot, stop on a
20-character alphanumeric result, otherwise convert E+/E- scientific
notation and accept only an exactly-20-character recovery (recording
LEI_EXCEL_NOTATION_FIXED), otherwise strip non-alphanumeric characters and
accept exactly 20 characters (LEI_CLEANED), otherwise leave the value
untouched with a non-blocking warning; and in particular the input
"9.60E+19" is recovered to the 20-character integer string
"96000000000000000000" with a LEI_EXCEL_NOTATION_FIXED change recorded,
both per-value and through fix_lei_format on a one-row table. -/
theorem fix_lei_format_tiered_cascade :
    (∀ (sci : String → Option String) (idx : Nat) (cell : String),
        fixLeiValue sci idx cell = leiCascadeSpec sci idx cell) ∧
    fixLeiValue sci960 0 "9.60E+19" =
      ⟨"96000000000000000000",
       [⟨"LEI_EXCEL_NOTATION_FIXED", 2, "ae_lei", "9.60E+19",
         "96000000000000000000"⟩], []⟩ ∧
    fix_lei_format sci960 ⟨["ae_lei"], [["9.60E+19"]]⟩ =
      (⟨["ae_lei"], [["96000000000000000000"]]⟩,
       [⟨"LEI_EXCEL_NOTATION_FIXED", 2, "ae_lei", "9.60E+19",
         "96000000000000000000"⟩]) :=
  ⟨fixLeiValue_eq_spec, by rfl, by rfl⟩

end MicaReg

namespace MicaReg

/-- Membership in a conditional singleton list forces equality. -/
theorem mem_ite_singleton {α : Type} {c : Prop} [Decidable c] {x y : α}
    (h : x ∈ if c then [y] else []) : x = y := by
  split at h
  · exact List.mem_singleton.mp h
  · exact absurd h (List.not_mem_nil x)

theorem structureIssues_column (header : List String)
    (rawRows : List (List String)) :
    ∀ i ∈ structureIssues header rawRows, i.column = none := by
  intro i hi
  unfold structureIssues at hi
  dsimp only at hi
  rw [mem_ite_singleton hi]

theorem validate_schema_column (header : List String) :
    ∀ i ∈ validate_schema header, i.column = none := by
  intro i hi
  unfold validate_schema at hi
  dsimp only at hi
  simp only [List.mem_append] at hi
  rcases hi with (h | h) | h <;> rw [mem_ite_singleton h]

theorem validate_lei_format_code (header : List String)
    (rows : List (List String)) :
    ∀ i ∈ validate_lei_format header rows, i.code = "LEI_INVALID_FORMAT" := by
  intro i hi
  unfold validate_lei_format at hi
  split at hi
  · cases hi
  · dsimp only at hi
    rw [mem_ite_singleton hi]

theorem validate_duplicate_lei_code (header : List String)
    (rows : List (List String)) :
    ∀ i ∈ validate_duplicate_lei header rows, i.code = "LEI_DUPLICATE" := by
  intro i hi
  unfold validate_duplicate_lei at hi
  split at hi
  · cases hi
  · dsimp only at hi
    rw [mem_ite_singleton hi]

theorem validate_dates_column (header : List String)
    (rows : List (List String)) :
    ∀ i ∈ validate_dates header rows, i.column ≠ some "ae_lei" := by
  intro i hi
  unfold validate_dates at hi
  dsimp only at hi
  simp only [List.mem_append, List.mem_map] at hi
  rcases hi with ⟨r, hr, rfl⟩ | ⟨r, hr, rfl⟩ <;>
  · intro hcol
    have h1 : r.1 = "ae_lei" := Option.some.inj hcol
    have hm := (List.mem_filter.mp hr).1
    rcases List.mem_filterMap.mp hm with ⟨col, hcm, hmap⟩
    rcases Option.map_eq_some'.mp hmap with ⟨idx, _, hpair⟩
    have h2 : r.1 = col := by rw [← hpair]
    rw [h2] at h1
    subst h1
    exact absurd hcm (by decide)

theorem validate_service_codes_unmapped (header : List String)
    (rows : List (List String)) :
    ∀ i ∈ validate_service_codes header rows,
      issueCodeToTaskType i.code = none := by
  intro i hi
  unfold validate_service_codes at hi
  split at hi
  · cases hi
  · dsimp only at hi
    simp only [List.mem_append] at hi
    rcases hi with h | h <;> rw [mem_ite_singleton h] <;> rfl

theorem validate_country_codes_column (pyLookup : Option (String → Bool))
    (header : List String) (rows : List (List String)) :
    ∀ i ∈ validate_country_codes pyLookup header rows,
      i.column ≠ some "ae_lei" := by
  intro i hi
  unfold validate_country_codes at hi
  dsimp only at hi
  simp only [List.mem_append] at hi
  rcases hi with h | h
  · split at h
    · cases h
    · rw [mem_ite_singleton h]
      intro hc
      simp at hc
  · rw [mem_ite_singleton h]
    intro hc
    simp at hc

theorem validate_multiline_fields_column (header : List String)
    (rows : List (List String)) :
    ∀ i ∈ validate_multiline_fields header rows,
      i.column ≠ some "ae_lei" := by
  intro i hi
  unfold validate_multiline_fields at hi
  dsimp only at hi
  simp only [List.mem_append] at hi
  rcases hi with h | h <;> rw [mem_ite_singleton h] <;> intro hc <;> simp at hc

theorem validate_encoding_column (header : List String)
    (rows : List (List String)) :
    ∀ i ∈ validate_encoding header rows, i.column = none := by
  intro i hi
  unfold validate_encoding at hi
  dsimp only at hi
  rw [mem_ite_singleton hi]

theorem validateIssues_lei_unmapped (pyLookup : Option (String → Bool))
    (header : List String) (rawRows : List (List String)) :
    ∀ i ∈ validateIssues pyLookup header rawRows,
      i.column = some "ae_lei" → issueCodeToTaskType i.code = none := by
  intro i hi hcol
  unfold validateIssues at hi
  dsimp only at hi
  simp only [List.mem_append] at hi
  rcases hi with ((((((((h | h) | h) | h) | h) | h) | h) | h) | h)
  · exact absurd (structureIssues_column header rawRows i h ▸ hcol)
      (by intro hx; cases hx)
  · exact absurd (validate_schema_column header i h ▸ hcol)
      (by intro hx; cases hx)
  · rw [validate_lei_format_code header _ i h]
    rfl
  · rw [validate_duplicate_lei_code header _ i h]
    rfl
  · exact absurd hcol (validate_dates_column header _ i h)
  · exact validate_service_codes_unmapped header _ i h
  · exact absurd hcol (validate_country_codes_column pyLookup header _ i h)
  · exact absurd hcol (validate_multiline_fields_column header _ i h)
  · exact absurd (validate_encoding_column header _ i h ▸ hcol)
      (by intro hx; cases hx)

end MicaReg

namespace MicaReg

theorem issueToDict_column (m : Nat) (i : Issue) :
    (issueToDict m i).column = i.column := by
  unfold issueToDict
  split <;> rfl

theorem issueToDict_code (m : Nat) (i : Issue) :
    (issueToDict m i).code = i.code := by
  unfold issueToDict
  split <;> rfl

theorem validationReportIssues_lei_unmapped (pyLookup : Option (String → Bool))
    (header : List String) (rawRows : List (List String)) (maxExamples : Nat) :
    ∀ i ∈ validationReportIssues pyLookup header rawRows maxExamples,
      i.column = some "ae_lei" → issueCodeToTaskType i.code = none := by
  intro i hi hcol
  unfold validationReportIssues at hi
  rcases List.mem_map.mp hi with ⟨j, hj, rfl⟩
  rw [issueToDict_code]
  rw [issueToDict_column] at hcol
  exact validateIssues_lei_unmapped pyLookup header rawRows j hj hcol

theorem genTasksRows_column (h : String → String) (uuid : Nat → String)
    (df : DataTable) (maxTasks : Nat) (issue : Issue) (taskType : TaskType)
    (column : String) (severity : String) (hcol : column ≠ "ae_lei") :
    ∀ (rowNums : List Nat) (tasks : List RemediationTask),
      (∀ t ∈ tasks, t.column ≠ "ae_lei") →
      ∀ t ∈ genTasksRows h uuid df maxTasks issue taskType column severity
          rowNums tasks, t.column ≠ "ae_lei" := by
  intro rowNums
  induction rowNums with
  | nil =>
    intro tasks ht t htm
    exact ht t htm
  | cons rn rest ih =>
    intro tasks ht t htm
    unfold genTasksRows at htm
    split at htm
    · exact ht t htm
    · split at htm
      · exact ih tasks ht t htm
      · dsimp only at htm
        split at htm
        · exact ih tasks ht t htm
        · refine ih _ ?_ t htm
          intro u hu
          rcases List.mem_append.mp hu with hu | hu
          · exact ht u hu
          · rw [List.mem_singleton.mp hu]
            exact hcol

theorem genTasksGo_column (h : String → String) (uuid : Nat → String)
    (df : DataTable) (maxTasks : Nat) :
    ∀ (issues : List Issue),
      (∀ i ∈ issues, i.column = some "ae_lei" →
        issueCodeToTaskType i.code = none) →
      ∀ (tasks : List RemediationTask),
        (∀ t ∈ tasks, t.column ≠ "ae_lei") →
        ∀ t ∈ generate_tasks.go h uuid df maxTasks issues tasks,
          t.column ≠ "ae_lei" := by
  intro issues
  induction issues with
  | nil =>
    intro _ tasks ht t htm
    exact ht t htm
  | cons issue rest ih =>
    intro hiss tasks ht t htm
    have hrest : ∀ i ∈ rest, i.column = some "ae_lei" →
        issueCodeToTaskType i.code = none :=
      fun i hi => hiss i (List.mem_cons_of_mem _ hi)
    unfold generate_tasks.go at htm
    split at htm
    · exact ht t htm
    · dsimp only at htm
      split at htm
      · exact ih hrest tasks ht t htm
      · split at htm
        · exact ih hrest tasks ht t htm
        · rename_i taskType hmap
          split at htm
          · exact ih hrest tasks ht t htm
          · rename_i column hcolumn
            split at htm
            · exact ih hrest tasks ht t htm
            · refine ih hrest _ ?_ t htm
              have hcne : column ≠ "ae_lei" := by
                intro hce
                subst hce
                have := hiss issue (List.mem_cons_self _ _)
                  (by rw [hcolumn])
                rw [this] at hmap
                cases hmap
              exact genTasksRows_column h uuid df maxTasks issue taskType
                column _ hcne (issue.rows.take 5) tasks ht

end MicaReg

namespace MicaReg

/-- C6: for every validation report produced by the validation engine (any
pycountry availability, header, raw rows and example cap) and every
maxTasks and oracle inputs, no task returned by generate_tasks has column
"ae_lei": the LEI-related issue codes (LEI_INVALID_FORMAT, LEI_DUPLICATE)
have no task-type mapping and are skipped, and no other issue carrying the
ae_lei column is ever produced, so LEI edits are never offered for model
remediation. -/
theorem generate_tasks_never_targets_lei
    (pyLookup : Option (String → Bool)) (header : List String)
    (rawRows : List (List String)) (maxExamples : Nat) (h : String → String)
    (uuid : Nat → String) (df : DataTable) (maxTasks : Nat) :
    (generate_tasks h uuid df
        (validationReportIssues pyLookup header rawRows maxExamples)
        maxTasks).all (fun t => t.column ≠ "ae_lei") = true := by
  rw [List.all_eq_true]
  intro t ht
  rw [decide_eq_true_eq]
  unfold generate_tasks at ht
  exact genTasksGo_column h uuid df maxTasks
    (validationReportIssues pyLookup header rawRows maxExamples)
    (validationReportIssues_lei_unmapped pyLookup header rawRows maxExamples)
    [] (fun u hu => absurd hu (List.not_mem_nil u)) t ht

end MicaReg

namespace MicaReg

/-! ## C9: row resolution by identifier -/

/-- Counterexample to claim C9's synthetic-id tier: ident9 carries no LEI
but a truthy synthetic id, the specification's priority order resolves it
to row 0, yet find_row_by_identifier returns None (the synthetic-id
fallback of the docstring is unimplemented). -/
theorem find_row_synthetic_id_unresolved :
    optTruthy ident9.lei = false ∧
    optTruthy ident9.synthetic_id = true ∧
    find_row_by_identifier df9 ident9 = .ok none ∧
    findRowSpecC9 h9 df9 ident9 = some 0 :=
  ⟨by decide, by decide, by rfl, by rfl⟩

/-- C9 (amended): find_row_by_identifier resolves by exact LEI match when
exactly one row carries the identifier's LEI, and by the composite
(LEI, competentAuthority, serviceCountry) when the LEI is duplicated and
the composite filter is uniquely satisfied; but an identifier without a
usable LEI always resolves to None — the synthetic-id tier of the claim is
not implemented. -/
theorem find_row_by_identifier_resolution :
    (∀ (df : DataTable) (ident : RowIdentifier),
       optTruthy ident.lei = false →
       find_row_by_identifier df ident = .ok none) ∧
    (∀ (df : DataTable) (ident : RowIdentifier) (leiIdx : Nat),
       optTruthy ident.lei = true →
       df.header.indexOf? "ae_lei" = some leiIdx →
       (leiMatchRows df leiIdx (ident.lei.getD "")).length = 1 →
       find_row_by_identifier df ident =
         .ok ((leiMatchRows df leiIdx (ident.lei.getD "")).head?.map Prod.fst)) ∧
    (∀ (df : DataTable) (ident : RowIdentifier) (leiIdx caIdx scIdx : Nat),
       optTruthy ident.lei = true →
       df.header.indexOf? "ae_lei" = some leiIdx →
       (leiMatchRows df leiIdx (ident.lei.getD "")).length > 1 →
       optTruthy ident.competent_authority = true →
       optTruthy ident.service_country = true →
       df.header.indexOf? "ae_competentAuthority" = some caIdx →
       df.header.indexOf? "ac_serviceCode_cou" = some scIdx →
       (compositeFilter (ident.competent_authority.getD "")
          (ident.service_country.getD "") caIdx scIdx
          (leiMatchRows df leiIdx (ident.lei.getD ""))).length = 1 →
       find_row_by_identifier df ident =
         .ok ((compositeFilter (ident.competent_authority.getD "")
                (ident.service_country.getD "") caIdx scIdx
                (leiMatchRows df leiIdx (ident.lei.getD ""))).head?.map
              Prod.fst)) := by
  refine ⟨?_, ?_, ?_⟩
  · intro df ident h
    unfold find_row_by_identifier
    rw [if_neg (by rw [h]; exact Bool.false_ne_true)]
  · intro df ident leiIdx h hidx hlen
    unfold find_row_by_identifier
    rw [if_pos h]
    dsimp only
    rw [hidx]
    dsimp only
    rw [if_pos (by rw [show df.rows.enum.filter
       (fun p => astypeStrStrip ((p.2.get? leiIdx).join) = ident.lei.getD "") =
       leiMatchRows df leiIdx (ident.lei.getD "") from rfl, hlen])]
    rfl
  · intro df ident leiIdx caIdx scIdx h hidx hlen hca hsc hcaidx hscidx hcomp
    unfold find_row_by_identifier
    rw [if_pos h]
    dsimp only
    rw [hidx]
    dsimp only
    have hms : df.rows.enum.filter
        (fun p => astypeStrStrip ((p.2.get? leiIdx).join) = ident.lei.getD "") =
        leiMatchRows df leiIdx (ident.lei.getD "") := rfl
    rw [if_neg (by rw [hms]; omega)]
    rw [if_pos (show (List.filter (fun p =>
        decide (astypeStrStrip (p.2.get? leiIdx).join = ident.lei.getD ""))
        df.rows.enum).length > 1 by rw [hms]; exact hlen)]
    rw [if_pos (⟨hca, hsc⟩ : optTruthy ident.competent_authority = true ∧
        optTruthy ident.service_country = true)]
    rw [hcaidx, hscidx]
    dsimp only
    have hm2 : (df.rows.enum.filter
        (fun p => astypeStrStrip ((p.2.get? leiIdx).join) = ident.lei.getD "")).filter
        (fun p => astypeStrStrip ((p.2.get? caIdx).join) =
            ident.competent_authority.getD "" ∧
          astypeStrStrip ((p.2.get? scIdx).join) =
            ident.service_country.getD "") =
        compositeFilter (ident.competent_authority.getD "")
          (ident.service_country.getD "") caIdx scIdx
          (leiMatchRows df leiIdx (ident.lei.getD "")) := rfl
    rw [if_pos (by rw [hm2, hcomp])]
    rw [hm2]

/-- C9 witness: the no-LEI identifier ident9 resolves to None; the unique
LEI "L2" of df9b resolves via the exact-match tier (to row 2); the
duplicated LEI "L1" with composite fields resolves via the composite tier
(to row 1). -/
theorem find_row_by_identifier_resolution_witness :
    find_row_by_identifier df9 ident9 = .ok none ∧
    find_row_by_identifier df9b identU =
      .ok ((leiMatchRows df9b 0 (identU.lei.getD "")).head?.map Prod.fst) ∧
    find_row_by_identifier df9b identC =
      .ok ((compositeFilter (identC.competent_authority.getD "")
             (identC.service_country.getD "") 1 2
             (leiMatchRows df9b 0 (identC.lei.getD ""))).head?.map Prod.fst) :=
  ⟨find_row_by_identifier_resolution.1 df9 ident9 (by decide),
   find_row_by_identifier_resolution.2.1 df9b identU 0 (by decide) (by decide)
     (by decide),
   find_row_by_identifier_resolution.2.2 df9b identC 0 1 2 (by decide)
     (by decide) (by decide) (by decide) (by decide) (by decide) (by decide)
     (by decide)⟩

end MicaReg
